import Mathlib

set_option maxHeartbeats 1000000
set_option maxRecDepth 4000

namespace KitmeK

/-! Shallow embedding of the KitmeK backend constraint-extraction and
validation engine (`src/services/validator.py`, `src/services/kb_loader.py`,
`src/config.py`, `src/exceptions.py`).  Python dynamic values are modelled by
the `Json` tree below; Python exceptions are modelled by `Except String`;
Python floats arising in report scoring are modelled by rationals together
with an explicit round-half-even function matching `round(x, 2)` on the
dyadic values produced by the scoring code. -/

/-- Python-style dynamic value (dict / list / str / int / bool / None), the
shape of the `lesson_data: dict[str, Any]` trees consumed by the validator. -/
inductive Json where
  | str (s : String)
  | num (n : Int)
  | bool (b : Bool)
  | null
  | arr (xs : List Json)
  | obj (fields : List (String × Json))
  deriving Repr

/-- Python whitespace characters recognised by `str.strip`, `str.split` and
the regex class `\s` (ASCII fragment). -/
def pyWs (c : Char) : Bool :=
  c == ' ' || c == '\t' || c == '\n' || c == '\r' || c == '\x0B' || c == '\x0C'

/-- Characters matched by the regex class `\w` (ASCII fragment). -/
def pyWord (c : Char) : Bool :=
  c.isAlphanum || c == '_'

/-- Python `str.strip()` (ASCII whitespace). -/
def pyStrip (s : String) : String :=
  (((s.toList.dropWhile pyWs).reverse.dropWhile pyWs).reverse).asString

/-- Python `str.lower()` (ASCII fragment). -/
def pyLower (s : String) : String :=
  (s.toList.map Char.toLower).asString

/-- Python `str.upper()` (ASCII fragment). -/
def pyUpper (s : String) : String :=
  (s.toList.map Char.toUpper).asString

/-- Helper for `pySplitWs`: split a character list on whitespace runs,
dropping empty tokens, accumulating the current token in reverse. -/
def pySplitWsAux : List Char → List Char → List (List Char)
  | [], cur => if cur.isEmpty then [] else [cur.reverse]
  | c :: cs, cur =>
    if pyWs c then
      if cur.isEmpty then pySplitWsAux cs [] else cur.reverse :: pySplitWsAux cs []
    else pySplitWsAux cs (c :: cur)

/-- Python `str.split()` with no arguments: split on whitespace runs and
discard empty tokens. -/
def pySplitWs (s : String) : List String :=
  (pySplitWsAux s.toList []).map List.asString

/-- Contiguous-sublist test on character lists. -/
def listInfix (needle : List Char) : List Char → Bool
  | [] => needle.isEmpty
  | c :: rest => needle.isPrefixOf (c :: rest) || listInfix needle rest

/-- Python substring test `needle in hay`. -/
def substrContains (hay needle : String) : Bool :=
  listInfix needle.toList hay.toList

/-- Python slice `s[:n]` (by characters). -/
def strTake (s : String) (n : Nat) : String :=
  (s.toList.take n).asString

/-- Count of non-overlapping occurrences of a literal pattern, scanning left
to right, as `len(re.findall(re.escape(pat), s))` computes for the literal
patterns used by the validator. -/
def countOccAux (pat : List Char) : Nat → List Char → Nat
  | 0, _ => 0
  | _ + 1, [] => 0
  | fuel + 1, c :: cs =>
    if pat.isPrefixOf (c :: cs) then
      1 + countOccAux pat fuel (cs.drop (pat.length - 1))
    else countOccAux pat fuel cs

/-- String version of `countOccAux` (the fuel bounds the scan position and
never runs out, since every step consumes at least one character). -/
def countOcc (pat s : String) : Nat :=
  countOccAux pat.toList (s.length + 1) s.toList

/-- Removal of all non-overlapping occurrences of a literal pattern, scanning
left to right and continuing after each match, as `re.sub(re.escape(pat), "", s)`
does for the literal patterns used by the validator. -/
def removeSubAux (pat : List Char) : Nat → List Char → List Char
  | 0, rest => rest
  | _ + 1, [] => []
  | fuel + 1, c :: cs =>
    if pat.isPrefixOf (c :: cs) then
      removeSubAux pat fuel (cs.drop (pat.length - 1))
    else c :: removeSubAux pat fuel cs

/-- String version of `removeSubAux`. -/
def removeSub (pat s : String) : String :=
  (removeSubAux pat.toList (s.length + 1) s.toList).asString

/-- Attempted match of the tail `\s*(\w+)\]` of the emphasis-marker regex
`\[Emphasis:\s*(\w+)\]`, applied to the text following the literal
`[Emphasis:`.  Returns the captured word and the text after the match. -/
def emphasisTail (cs : List Char) : Option (String × List Char) :=
  let afterWs := cs.dropWhile pyWs
  let w := afterWs.takeWhile pyWord
  if w.isEmpty then none
  else
    match afterWs.drop w.length with
    | ']' :: rest => some (w.asString, rest)
    | _ => none

/-- Fuelled scanner for `re.findall(r"\[Emphasis:\s*(\w+)\]", s)`: at each
position try the pattern; on success capture the word and continue after the
match, otherwise advance one character. -/
def findEmphasisAux : Nat → List Char → List String
  | 0, _ => []
  | _ + 1, [] => []
  | fuel + 1, c :: cs =>
    if ("[Emphasis:".toList).isPrefixOf (c :: cs) then
      match emphasisTail (cs.drop 9) with
      | some (w, rest) => w :: findEmphasisAux fuel rest
      | none => findEmphasisAux fuel cs
    else findEmphasisAux fuel cs

/-- List of captured emphasis words in order of occurrence. -/
def findEmphasis (s : String) : List String :=
  findEmphasisAux (s.length + 1) s.toList

/-- Fuelled scanner for `re.sub(r"\[Emphasis:\s*\w+\]", "", s)`. -/
def removeEmphasisAux : Nat → List Char → List Char
  | 0, rest => rest
  | _ + 1, [] => []
  | fuel + 1, c :: cs =>
    if ("[Emphasis:".toList).isPrefixOf (c :: cs) then
      match emphasisTail (cs.drop 9) with
      | some (_, rest) => removeEmphasisAux fuel rest
      | none => c :: removeEmphasisAux fuel cs
    else c :: removeEmphasisAux fuel cs

/-- String version of `removeEmphasisAux`. -/
def removeEmphasis (s : String) : String :=
  (removeEmphasisAux (s.length + 1) s.toList).asString

/-- Sentence-terminating punctuation for the split regex `(?<=[.!?])\s+`. -/
def sentPunct (c : Char) : Bool :=
  c == '.' || c == '!' || c == '?'

/-- Fuelled scanner for `re.split(r"(?<=[.!?])\s+", t)`: a split happens at
each maximal whitespace run whose preceding character is `.`, `!` or `?`. -/
def splitSentAux : Nat → List Char → Char → List Char → List (List Char)
  | 0, _, _, cur => [cur.reverse]
  | _ + 1, [], _, cur => [cur.reverse]
  | fuel + 1, c :: cs, prev, cur =>
    if pyWs c && sentPunct prev then
      cur.reverse :: splitSentAux fuel ((c :: cs).dropWhile pyWs) ' ' []
    else
      splitSentAux fuel cs c (c :: cur)

/-- Raw pieces of the sentence split (before per-piece stripping). -/
def splitSentences (t : String) : List String :=
  (splitSentAux (t.length + 1) t.toList ' ' []).map List.asString

/-- Maximal `\w+` runs, as `re.findall(r"\b\w+\b", s)` returns. -/
def findWordRunsAux : Nat → List Char → List String
  | 0, _ => []
  | _ + 1, [] => []
  | fuel + 1, c :: cs =>
    if pyWord c then
      let run := (c :: cs).takeWhile pyWord
      run.asString :: findWordRunsAux fuel ((c :: cs).drop run.length)
    else findWordRunsAux fuel cs

/-- String version of `findWordRunsAux`. -/
def findWordRuns (s : String) : List String :=
  findWordRunsAux (s.length + 1) s.toList

/-- Single-quote character, used by the Python `repr` rendering. -/
def aposStr : String := String.mk [Char.ofNat 39]

/-- Opening-brace character as a string. -/
def lbraceStr : String := String.mk [Char.ofNat 123]

/-- Closing-brace character as a string. -/
def rbraceStr : String := String.mk [Char.ofNat 125]

/-- Join a list of strings with a separator, as `sep.join(xs)`. -/
def joinSep (sep : String) : List String → String
  | [] => ""
  | [x] => x
  | x :: xs => x ++ sep ++ joinSep sep xs

mutual

/-- Python `repr` rendering of a dynamic value (ASCII fragment, single
quotes, no escaping), used where the source interpolates non-string values
into f-strings. -/
def pyRepr : Json → String
  | .str s => aposStr ++ s ++ aposStr
  | .num n => toString n
  | .bool b => if b then "True" else "False"
  | .null => "None"
  | .arr xs => "[" ++ joinSep ", " (pyReprList xs) ++ "]"
  | .obj fs => lbraceStr ++ joinSep ", " (pyReprFields fs) ++ rbraceStr

/-- Element-wise `pyRepr` over a list. -/
def pyReprList : List Json → List String
  | [] => []
  | x :: xs => pyRepr x :: pyReprList xs

/-- Field-wise `pyRepr` over dict entries. -/
def pyReprFields : List (String × Json) → List String
  | [] => []
  | (k, v) :: fs => (aposStr ++ k ++ aposStr ++ ": " ++ pyRepr v) :: pyReprFields fs

end

/-- Python `str()` of a dynamic value: strings render without quotes, other
values via `repr`. -/
def pyStr : Json → String
  | .str s => s
  | other => pyRepr other

/-- Python `repr` of a list of strings, used for f-string interpolation of
`list[str]` values. -/
def pyReprStrList (xs : List String) : String :=
  "[" ++ joinSep ", " (xs.map (fun s => aposStr ++ s ++ aposStr)) ++ "]"

mutual

/-- Model of `validator._extract_all_text._recurse`: all string leaves of a
lesson tree, in traversal order (dict values in insertion order). -/
def collectTexts : Json → List String
  | .str s => [s]
  | .num _ => []
  | .bool _ => []
  | .null => []
  | .arr xs => collectTextsList xs
  | .obj fs => collectTextsFields fs

/-- Element-wise `collectTexts` over a list. -/
def collectTextsList : List Json → List String
  | [] => []
  | x :: xs => collectTexts x ++ collectTextsList xs

/-- Value-wise `collectTexts` over dict entries. -/
def collectTextsFields : List (String × Json) → List String
  | [] => []
  | (_, v) :: fs => collectTexts v ++ collectTextsFields fs

end

/-- Model of `validator._extract_all_text`: join all string leaves with a
single space. -/
def extractAllText (lesson_data : Json) : String :=
  joinSep " " (collectTexts lesson_data)

/-- Model of `validator._extract_sentences`: strip the three audio markers,
strip surrounding whitespace, split on sentence-ending punctuation followed
by whitespace, then strip each piece and drop empty pieces. -/
def extractSentences (text : String) : List String :=
  let cleaned := removeEmphasis (removeSub "[Pause]" (removeSub "[Beat]" text))
  ((splitSentences (pyStrip cleaned)).map pyStrip).filter (fun s => s ≠ "")

/-- Model of `validator._count_words`: whitespace-split the sentence and
count tokens containing at least one alphanumeric character. -/
def countWords (sentence : String) : Nat :=
  ((pySplitWs sentence).filter (fun w => w.toList.any Char.isAlphanum)).length

/-- Lookup in an ordered dict modelled as an association list (keys unique
in all dictionaries built by the source). -/
def assocFind (fields : List (String × Json)) (k : String) : Option Json :=
  match fields with
  | [] => none
  | (k2, v) :: rest => if k2 = k then some v else assocFind rest k

/-- Generic `dict.get(key, default)` over an association list. -/
def dictGetD {α : Type} (l : List (String × α)) (k : String) (d : α) : α :=
  match l with
  | [] => d
  | (k2, v) :: rest => if k2 = k then v else dictGetD rest k d

/-- Python truthiness of a dynamic value. -/
def pyTruthy : Json → Bool
  | .str s => s ≠ ""
  | .num n => n ≠ 0
  | .bool b => b
  | .null => false
  | .arr xs => !xs.isEmpty
  | .obj fs => !fs.isEmpty

/-- Python `value.get(key, default)`: dictionaries look the key up, any other
receiver raises `AttributeError`. -/
def pyGetD (j : Json) (k : String) (dflt : Json) : Except String Json :=
  match j with
  | .obj fs => .ok ((assocFind fs k).getD dflt)
  | _ => .error ("AttributeError: no attribute get (key " ++ k ++ ")")

/-- Python iteration over a dynamic value: lists yield elements, strings
yield one-character strings, dicts yield their keys; other values raise
`TypeError`. -/
def pyIterate : Json → Except String (List Json)
  | .arr xs => .ok xs
  | .str s => .ok (s.toList.map (fun c => Json.str (String.mk [c])))
  | .obj fs => .ok (fs.map (fun p => Json.str p.1))
  | _ => .error "TypeError: object is not iterable"

/-! Grade-level constants transcribed from `validator.py`. -/

/-- Entry of `validator.LANGUAGE_CEILINGS`. -/
structure VCeiling where
  max_sentence_length : Nat
  new_vocab_max : Nat
  deriving Repr, DecidableEq

/-- Model of `validator.LANGUAGE_CEILINGS`. -/
def LANGUAGE_CEILINGS : List (String × VCeiling) :=
  [("K", ⟨7, 3⟩), ("1", ⟨8, 4⟩), ("2", ⟨10, 5⟩),
   ("3", ⟨12, 6⟩), ("4", ⟨15, 8⟩), ("5", ⟨18, 10⟩)]

/-- Per-grade Bloom level counts (`dict[str, int]` with keys L1..L5). -/
structure BloomCounts where
  l1 : Nat
  l2 : Nat
  l3 : Nat
  l4 : Nat
  l5 : Nat
  deriving Repr, DecidableEq

/-- Model of `validator.BLOOM_DISTRIBUTION`. -/
def BLOOM_DISTRIBUTION : List (String × BloomCounts) :=
  [("K", ⟨4, 4, 2, 0, 0⟩), ("1", ⟨3, 4, 2, 1, 0⟩), ("2", ⟨3, 3, 2, 1, 1⟩),
   ("3", ⟨2, 3, 3, 1, 1⟩), ("4", ⟨2, 2, 3, 2, 1⟩), ("5", ⟨1, 2, 3, 2, 2⟩)]

/-- Model of `validator.ALLOWED_INTERACTIONS`. -/
def ALLOWED_INTERACTIONS : List (String × List String) :=
  [("K",
    ["Tap to Select", "Tap All That Apply", "Tap to Count",
     "Tap in Sequence", "Tap Yes / No", "Reveal on Tap", "Tap to Build",
     "Drag and Drop", "Drag to Sort", "Drag to Complete",
     "Follow the Path", "Drag to reorder items", "Drag along a path",
     "Match one item to another", "Flip to find a pair",
     "Choose the Odd One Out", "Match item to placeholder",
     "Trace with Finger", "Swipe to Move",
     "Slide to adjust size or value", "Scratch to reveal",
     "Listen and Respond", "Listen and respond", "Listen and act"]),
   ("1",
    ["Tap to Select", "Tap All That Apply", "Tap to Count",
     "Tap in Sequence", "Tap Yes / No", "Reveal on Tap", "Tap to Build",
     "Drag and Drop", "Drag to Sort", "Drag to Complete",
     "Follow the Path", "Drag to reorder items",
     "Match one item to another", "Flip to find a pair",
     "Choose the Odd One Out", "Match item to placeholder",
     "Trace with Finger", "Swipe to Move",
     "Slide to adjust size or value",
     "Listen and Respond", "Listen and respond"]),
   ("2",
    ["Tap to Select", "Tap All That Apply", "Tap in Sequence",
     "Tap Yes / No", "Reveal on Tap",
     "Drag and Drop", "Drag to Sort", "Drag to Complete",
     "Drag to reorder items",
     "Match one item to another", "Flip to find a pair",
     "Choose the Odd One Out", "Match item to placeholder",
     "Slide to adjust size or value",
     "Listen and Respond", "Listen and respond"]),
   ("3",
    ["Tap to Select", "Tap All That Apply", "Tap in Sequence",
     "Tap Yes / No",
     "Drag and Drop", "Drag to Sort", "Drag to Complete",
     "Drag to reorder items",
     "Match one item to another", "Choose the Odd One Out",
     "Match item to placeholder",
     "Listen and Respond"]),
   ("4",
    ["Tap to Select", "Tap All That Apply", "Tap in Sequence",
     "Tap Yes / No",
     "Drag and Drop", "Drag to Sort", "Drag to Complete",
     "Drag to reorder items",
     "Match one item to another", "Choose the Odd One Out",
     "Match item to placeholder",
     "Listen and Respond"]),
   ("5",
    ["Tap to Select", "Tap All That Apply", "Tap in Sequence",
     "Tap Yes / No",
     "Drag and Drop", "Drag to Sort", "Drag to Complete",
     "Drag to reorder items",
     "Match one item to another", "Choose the Odd One Out",
     "Match item to placeholder",
     "Listen and Respond"])]

/-- Grade lookup with the fallback `LANGUAGE_CEILINGS.get(grade, LANGUAGE_CEILINGS["3"])`. -/
def languageCeilingsGet (grade : String) : VCeiling :=
  dictGetD LANGUAGE_CEILINGS grade (dictGetD LANGUAGE_CEILINGS "3" ⟨0, 0⟩)

/-- Grade lookup with the fallback `BLOOM_DISTRIBUTION.get(grade, BLOOM_DISTRIBUTION["3"])`. -/
def bloomDistributionGet (grade : String) : BloomCounts :=
  dictGetD BLOOM_DISTRIBUTION grade (dictGetD BLOOM_DISTRIBUTION "3" ⟨0, 0, 0, 0, 0⟩)

/-- Grade lookup with the fallback `ALLOWED_INTERACTIONS.get(grade, ALLOWED_INTERACTIONS["3"])`. -/
def allowedInteractionsGet (grade : String) : List String :=
  dictGetD ALLOWED_INTERACTIONS grade (dictGetD ALLOWED_INTERACTIONS "3" [])

/-! Report data model from `validator.py`. -/

/-- Model of `validator.CheckResult`. -/
structure CheckResult where
  name : String
  status : String
  details : List (String × Json) := []
  message : String := ""
  deriving Repr

/-- Model of `validator.ValidationReport` (floats as rationals). -/
structure ValidationReport where
  passed : Bool := true
  checks : List CheckResult := []
  warnings : List Json := []
  errors : List Json := []
  overall_score : ℚ := 1
  deriving Repr

/-- Model of `ValidationReport.add_check`. -/
def addCheck (r : ValidationReport) (c : CheckResult) : ValidationReport :=
  let r2 := { r with checks := r.checks ++ [c] }
  if c.status = "failed" then
    { r2 with
      passed := false
      errors := r2.errors ++
        [Json.obj [("type", .str c.name), ("message", .str c.message),
                   ("severity", .str "high")]] }
  else if c.status = "warning" then
    { r2 with
      warnings := r2.warnings ++
        [Json.obj [("type", .str c.name), ("message", .str c.message),
                   ("severity", .str "low")]] }
  else r2

/-- Round-half-even of a rational to an integer, the behaviour of Python
`round` on the exactly-representable dyadic scores produced by an eight-check
report. -/
def roundHalfEven (q : ℚ) : ℤ :=
  let f := ⌊q⌋
  let r := q - (f : ℚ)
  if r < 1 / 2 then f
  else if 1 / 2 < r then f + 1
  else if f % 2 = 0 then f else f + 1

/-- Model of Python `round(x, 2)` on the report scores. -/
def pyRound2 (q : ℚ) : ℚ :=
  ((roundHalfEven (q * 100) : ℤ) : ℚ) / 100

/-- Model of `ValidationReport.compute_score`. -/
def computeScore (r : ValidationReport) : ValidationReport :=
  if r.checks.isEmpty then { r with overall_score := 0 }
  else
    let total : ℚ := (r.checks.length : ℚ)
    let passedN : ℚ := ((r.checks.countP (fun c => c.status == "passed")) : ℚ)
    let warnedN : ℚ := ((r.checks.countP (fun c => c.status == "warning")) : ℚ)
    { r with overall_score := pyRound2 ((passedN + warnedN * (1 / 2)) / total) }

/-! The eight checks of `LessonValidator`. -/

/-- Model of `LessonValidator.language_ceiling_check` (total: it inspects the
lesson tree only through `_extract_all_text`, so it never raises). -/
def language_ceiling_check (lesson_data : Json) (grade : String) :
    Except String CheckResult :=
  let ceiling := languageCeilingsGet grade
  let max_len := ceiling.max_sentence_length
  let max_vocab := ceiling.new_vocab_max
  let all_text := extractAllText lesson_data
  let sentences := extractSentences all_text
  let violations := sentences.filterMap (fun sent =>
    if countWords sent > max_len then
      some (Json.obj
        [("sentence", .str (strTake sent 80)),
         ("word_count", .num (countWords sent)),
         ("max_allowed", .num (max_len : Int))])
    else none)
  let max_found := sentences.foldl (fun m s => Nat.max m (countWords s)) 0
  let emphasis_matches := findEmphasis all_text
  let new_vocab_count := emphasis_matches.eraseDups.length
  let vocab_exceeded := new_vocab_count > max_vocab
  let details : List (String × Json) :=
    [("max_sentence_length", .num (max_len : Int)),
     ("sentences_checked", .num (sentences.length : Int)),
     ("max_found", .num (max_found : Int)),
     ("violations_count", .num (violations.length : Int)),
     ("violations", .arr (violations.take 5)),
     ("new_vocab_count", .num (new_vocab_count : Int)),
     ("new_vocab_max", .num (max_vocab : Int)),
     ("vocab_exceeded", .bool vocab_exceeded)]
  if !violations.isEmpty || vocab_exceeded then
    .ok { name := "language_ceiling", status := "failed", details := details,
          message :=
            toString violations.length ++ " sentence(s) exceed max length " ++
            toString max_len ++ " for grade " ++ grade ++ ". New vocab: " ++
            toString new_vocab_count ++ "/" ++ toString max_vocab ++ "." }
  else
    .ok { name := "language_ceiling", status := "passed", details := details }

/-- Bloom label of a quiz item: `q.get("bloom_level", "").upper().strip()`,
raising when the item is not a dict or the label is not a string. -/
def getBloomLabel (q : Json) : Except String String :=
  match pyGetD q "bloom_level" (.str "") with
  | .error e => .error e
  | .ok (.str s) => .ok (pyStrip (pyUpper s))
  | .ok _ => .error "AttributeError: no attribute upper"

/-- Increment of the `actual` counter dict for a recognised level label. -/
def bloomIncr (c : BloomCounts) (bl : String) : BloomCounts :=
  if bl = "L1" then { c with l1 := c.l1 + 1 }
  else if bl = "L2" then { c with l2 := c.l2 + 1 }
  else if bl = "L3" then { c with l3 := c.l3 + 1 }
  else if bl = "L4" then { c with l4 := c.l4 + 1 }
  else if bl = "L5" then { c with l5 := c.l5 + 1 }
  else c

/-- Counting loop of `blooms_distribution_check` over the quiz items. -/
def countLevels : List Json → BloomCounts → Except String BloomCounts
  | [], acc => .ok acc
  | q :: qs, acc =>
    match getBloomLabel q with
    | .error e => .error e
    | .ok bl => countLevels qs (bloomIncr acc bl)

/-- Progression loop over `quiz[:3]` (items must be L1 or L2). -/
def lowIssues : List Json → Nat → Except String (List String)
  | [], _ => .ok []
  | q :: qs, i =>
    match getBloomLabel q with
    | .error e => .error e
    | .ok bl =>
      match lowIssues qs (i + 1) with
      | .error e => .error e
      | .ok rest =>
        if bl ≠ "L1" ∧ bl ≠ "L2" then
          .ok (("Q" ++ toString i ++ " is " ++ bl ++ ", expected L1 or L2") :: rest)
        else .ok rest

/-- Progression loop over `quiz[7:10]` (items must be L3, L4 or L5). -/
def highIssues : List Json → Nat → Except String (List String)
  | [], _ => .ok []
  | q :: qs, i =>
    match getBloomLabel q with
    | .error e => .error e
    | .ok bl =>
      match highIssues qs (i + 1) with
      | .error e => .error e
      | .ok rest =>
        if bl ≠ "L3" ∧ bl ≠ "L4" ∧ bl ≠ "L5" then
          .ok (("Q" ++ toString i ++ " is " ++ bl ++ ", expected L3-L5") :: rest)
        else .ok rest

/-- Rendering of a `BloomCounts` dict for f-string interpolation. -/
def bloomCountsRepr (c : BloomCounts) : String :=
  lbraceStr ++
    aposStr ++ "L1" ++ aposStr ++ ": " ++ toString c.l1 ++ ", " ++
    aposStr ++ "L2" ++ aposStr ++ ": " ++ toString c.l2 ++ ", " ++
    aposStr ++ "L3" ++ aposStr ++ ": " ++ toString c.l3 ++ ", " ++
    aposStr ++ "L4" ++ aposStr ++ ": " ++ toString c.l4 ++ ", " ++
    aposStr ++ "L5" ++ aposStr ++ ": " ++ toString c.l5 ++ rbraceStr

/-- Json rendering of a `BloomCounts` dict for the details map. -/
def bloomCountsJson (c : BloomCounts) : Json :=
  .obj [("L1", .num (c.l1 : Int)), ("L2", .num (c.l2 : Int)),
        ("L3", .num (c.l3 : Int)), ("L4", .num (c.l4 : Int)),
        ("L5", .num (c.l5 : Int))]

/-- Model of `LessonValidator.blooms_distribution_check`. -/
def blooms_distribution_check (lesson_data : Json) (grade : String) :
    Except String CheckResult :=
  let expected := bloomDistributionGet grade
  match pyGetD lesson_data "quick_quiz" (.arr []) with
  | .error e => .error e
  | .ok quiz =>
    if pyTruthy quiz = false then
      .ok { name := "blooms_distribution", status := "failed",
            details := [("error", .str "No quick_quiz found in lesson data")],
            message := "Quick quiz section is missing from lesson data." }
    else
      match pyIterate quiz with
      | .error e => .error e
      | .ok items =>
        match countLevels items ⟨0, 0, 0, 0, 0⟩ with
        | .error e => .error e
        | .ok actual =>
          match lowIssues (items.take 3) 1 with
          | .error e => .error e
          | .ok iss1 =>
            match highIssues ((items.drop 7).take 3) 8 with
            | .error e => .error e
            | .ok iss2 =>
              let distribution_match := actual == expected
              let progression_issues := iss1 ++ iss2
              let progression_ok := progression_issues.isEmpty
              let details : List (String × Json) :=
                [("expected", bloomCountsJson expected),
                 ("actual", bloomCountsJson actual),
                 ("distribution_match", .bool distribution_match),
                 ("progression_ok", .bool progression_ok),
                 ("progression_issues", .arr (progression_issues.map .str)),
                 ("total_questions", .num (items.length : Int))]
              if distribution_match = false ∨ progression_ok = false then
                .ok { name := "blooms_distribution", status := "failed",
                      details := details,
                      message :=
                        "Bloom" ++ aposStr ++ "s distribution mismatch for grade " ++
                        grade ++ ". Expected " ++ bloomCountsRepr expected ++
                        ", got " ++ bloomCountsRepr actual ++
                        ". Progression issues: " ++ pyReprStrList progression_issues }
              else
                .ok { name := "blooms_distribution", status := "passed",
                      details := details }

/-- Model of `LessonValidator.interaction_type_check`. -/
def interaction_type_check (lesson_data : Json) (grade : String) :
    Except String CheckResult :=
  let allowed := allowedInteractionsGet grade
  match pyGetD lesson_data "interactive_activity" (.obj []) with
  | .error e => .error e
  | .ok activity =>
    if pyTruthy activity = false then
      .ok { name := "interaction_type", status := "failed",
            details := [("error", .str "No interactive_activity found")],
            message := "Interactive activity section is missing from lesson data." }
    else
      match pyGetD activity "type" (.str "") with
      | .error e => .error e
      | .ok (.str activity_type) =>
        let allowed_lower := allowed.map pyLower
        let is_allowed := allowed_lower.contains (pyLower activity_type)
        match pyGetD activity "bloom_level" (.str "") with
        | .error e => .error e
        | .ok (.str abl) =>
          let activity_bloom := pyStrip (pyUpper abl)
          let bloom_ok := activity_bloom == "L3" || activity_bloom == "L4"
          let details : List (String × Json) :=
            [("activity_type", .str activity_type),
             ("allowed_for_grade", .arr (allowed.map .str)),
             ("is_allowed", .bool is_allowed),
             ("activity_bloom_level", .str activity_bloom),
             ("bloom_level_valid", .bool bloom_ok)]
          if is_allowed = false then
            .ok { name := "interaction_type", status := "failed",
                  details := details,
                  message :=
                    "Activity type " ++ aposStr ++ activity_type ++ aposStr ++
                    " is not allowed for grade " ++ grade ++ "." }
          else if bloom_ok = false then
            .ok { name := "interaction_type", status := "failed",
                  details := details,
                  message :=
                    "Activity Bloom" ++ aposStr ++ "s level " ++ aposStr ++
                    activity_bloom ++ aposStr ++ " should be L3 or L4." }
          else
            .ok { name := "interaction_type", status := "passed",
                  details := details }
        | .ok _ => .error "AttributeError: no attribute upper"
      | .ok _ => .error "AttributeError: no attribute lower"

/-- Model of `LessonValidator.definition_check` (total: `kb_definitions` is a
string-to-string dict by the call contract of `validate`). -/
def definition_check (lesson_data : Json)
    (kb_definitions : List (String × String)) : Except String CheckResult :=
  if kb_definitions.isEmpty then
    .ok { name := "definition_alignment", status := "warning",
          details := [("reason", .str "No KB definitions provided for comparison")],
          message := "No KB definitions available; skipping definition alignment." }
  else
    let all_text := pyLower (extractAllText lesson_data)
    let missing_concepts :=
      (kb_definitions.map Prod.fst).filter
        (fun concept => !(substrContains all_text (pyLower concept)))
    let concepts_checked := kb_definitions.length
    let concepts_found := concepts_checked - missing_concepts.length
    let details : List (String × Json) :=
      [("concepts_checked", .num (concepts_checked : Int)),
       ("concepts_found_in_lesson", .num (concepts_found : Int)),
       ("missing_concepts", .arr (missing_concepts.map .str))]
    if missing_concepts ≠ [] then
      .ok { name := "definition_alignment", status := "warning",
            details := details,
            message := "Some KB concepts not found in lesson: " ++
              pyReprStrList (missing_concepts.take 5) }
    else
      .ok { name := "definition_alignment", status := "passed",
            details := details }

/-- Model of `LessonValidator.story_integration_check`. -/
def story_integration_check (lesson_data : Json) (context_narrative : String) :
    Except String CheckResult :=
  if context_narrative = "" then
    .ok { name := "story_integration", status := "passed",
          details := [("reason",
            .str "No context narrative provided; check not applicable")] }
  else
    match pyGetD lesson_data "opening_narration" (.obj []) with
    | .error e => .error e
    | .ok opening =>
      let opening_text :=
        match opening with
        | .obj fs =>
          pyLower (joinSep " "
            (fs.filterMap (fun p =>
              match p.2 with
              | .str s => some s
              | _ => none)))
        | other => pyLower (pyStr other)
      let narrative_terms :=
        ((findWordRuns context_narrative).filter (fun w => w.length > 3)).map pyLower
      let opening_references :=
        narrative_terms.countP (fun t => substrContains opening_text t)
      match pyGetD lesson_data "narrated_explanation" (.arr []) with
      | .error e => .error e
      | .ok explanations =>
        let explanation_text :=
          pyLower (match explanations with
            | .arr exps =>
              exps.foldl (fun acc exp =>
                match exp with
                | .obj fs => acc ++ " " ++ pyStr ((assocFind fs "teacher_explains").getD (.str ""))
                | _ => acc) ""
            | _ => "")
        let explanation_references :=
          narrative_terms.countP (fun t => substrContains explanation_text t)
        let locations :=
          (if opening_references > 0 then ["Opening Narration"] else []) ++
          (if explanation_references > 0 then ["Narrated Explanation"] else [])
        let details : List (String × Json) :=
          [("context_narrative_provided", .bool true),
           ("narrative_terms_checked", .num (narrative_terms.length : Int)),
           ("opening_references", .num (opening_references : Int)),
           ("explanation_references", .num (explanation_references : Int)),
           ("locations_found", .arr (locations.map .str))]
        if locations.isEmpty then
          .ok { name := "story_integration", status := "warning",
                details := details,
                message := "Story context was provided but not referenced in lesson." }
        else
          .ok { name := "story_integration", status := "passed",
                details := details }

/-- Model of `LessonValidator.audio_pacing_check` (total). -/
def audio_pacing_check (lesson_data : Json) : Except String CheckResult :=
  let all_text := extractAllText lesson_data
  let beat_count := countOcc "[Beat]" all_text
  let pause_count := countOcc "[Pause]" all_text
  let emphasis_count := (findEmphasis all_text).length
  let details : List (String × Json) :=
    [("beat_markers", .num (beat_count : Int)),
     ("pause_markers", .num (pause_count : Int)),
     ("emphasis_markers", .num (emphasis_count : Int)),
     ("has_minimum_pause", .bool (pause_count ≥ 1)),
     ("has_minimum_beat", .bool (beat_count ≥ 1))]
  if pause_count = 0 then
    .ok { name := "audio_pacing", status := "failed", details := details,
          message := "No [Pause] marker found. At least one [Pause] per lesson is required." }
  else if beat_count = 0 then
    .ok { name := "audio_pacing", status := "failed", details := details,
          message := "No [Beat] marker found. At least one [Beat] per lesson is required." }
  else
    .ok { name := "audio_pacing", status := "passed", details := details }

/-- Feedback issues for one quiz field: missing when falsy, too short when a
string of fewer than four whitespace tokens; non-string truthy values raise
at `.split()`. -/
def fieldIssues (v : Json) (i : Nat) (fieldName : String) :
    Except String (List String) :=
  if pyTruthy v = false then
    .ok ["Q" ++ toString i ++ ": missing " ++ fieldName]
  else
    match v with
    | .str s =>
      if (pySplitWs s).length < 4 then
        .ok ["Q" ++ toString i ++ ": " ++ fieldName ++ " too short (needs reasoning)"]
      else .ok []
    | _ => .error "AttributeError: no attribute split"

/-- Quiz-feedback loop of `feedback_structure_check`. -/
def quizFeedbackIssues : List Json → Nat → Except String (List String)
  | [], _ => .ok []
  | q :: qs, i =>
    match pyGetD q "feedback_correct" (.str "") with
    | .error e => .error e
    | .ok fc =>
      match fieldIssues fc i "feedback_correct" with
      | .error e => .error e
      | .ok iss1 =>
        match pyGetD q "feedback_incorrect" (.str "") with
        | .error e => .error e
        | .ok fi =>
          match fieldIssues fi i "feedback_incorrect" with
          | .error e => .error e
          | .ok iss2 =>
            match quizFeedbackIssues qs (i + 1) with
            | .error e => .error e
            | .ok rest => .ok (iss1 ++ iss2 ++ rest)

/-- Model of `LessonValidator.feedback_structure_check`. -/
def feedback_structure_check (lesson_data : Json) : Except String CheckResult :=
  match pyGetD lesson_data "interactive_activity" (.obj []) with
  | .error e => .error e
  | .ok activity =>
    match pyGetD lesson_data "quick_quiz" (.arr []) with
    | .error e => .error e
    | .ok quiz =>
      match pyGetD activity "feedback_hint_1" (.str "") with
      | .error e => .error e
      | .ok h1 =>
        match pyGetD activity "feedback_hint_2" (.str "") with
        | .error e => .error e
        | .ok h2 =>
          match pyGetD activity "feedback_reveal" (.str "") with
          | .error e => .error e
          | .ok h3 =>
            let has_hint_1 := pyTruthy h1
            let has_hint_2 := pyTruthy h2
            let has_hint_3 := pyTruthy h3
            let activity_hints_ok := has_hint_1 && has_hint_2 && has_hint_3
            match pyIterate quiz with
            | .error e => .error e
            | .ok items =>
              match quizFeedbackIssues items 1 with
              | .error e => .error e
              | .ok quiz_feedback_issues =>
                let quiz_feedback_complete := quiz_feedback_issues.isEmpty
                let details : List (String × Json) :=
                  [("activity_hint_1", .bool has_hint_1),
                   ("activity_hint_2", .bool has_hint_2),
                   ("activity_hint_3_reveal", .bool has_hint_3),
                   ("activity_multitier_ok", .bool activity_hints_ok),
                   ("quiz_feedback_complete", .bool quiz_feedback_complete),
                   ("quiz_feedback_issues",
                    .arr ((quiz_feedback_issues.take 5).map .str))]
                if activity_hints_ok = false then
                  .ok { name := "feedback_structure", status := "failed",
                        details := details,
                        message := "Activity missing multi-tier hints (hint_1, hint_2, reveal)." }
                else if quiz_feedback_complete = false then
                  .ok { name := "feedback_structure", status := "failed",
                        details := details,
                        message := "Quiz feedback incomplete: " ++
                          pyReprStrList (quiz_feedback_issues.take 3) }
                else
                  .ok { name := "feedback_structure", status := "passed",
                        details := details }

/-- Model of `LessonValidator.content_isolation_check` (total). -/
def content_isolation_check (lesson_data : Json)
    (exclusions prerequisites : List String) : Except String CheckResult :=
  let all_text := pyLower (extractAllText lesson_data)
  let excluded_found :=
    exclusions.filter (fun concept => substrContains all_text (pyLower concept))
  let details : List (String × Json) :=
    [("exclusions_checked", .arr (exclusions.map .str)),
     ("excluded_concepts_found", .num (excluded_found.length : Int)),
     ("excluded_found_list", .arr (excluded_found.map .str)),
     ("prerequisites_declared", .arr (prerequisites.map .str)),
     ("prerequisites_met", .bool true)]
  if excluded_found ≠ [] then
    .ok { name := "content_isolation", status := "failed", details := details,
          message := "Lesson contains excluded concepts: " ++
            pyReprStrList excluded_found }
  else
    .ok { name := "content_isolation", status := "passed", details := details }

/-! The `validate` driver. -/

/-- CheckResult produced when a check raises, as `validate` builds it in the
except branch. -/
def errCheckResult (checkName e : String) : CheckResult :=
  { name := checkName, status := "failed",
    details := [("error", .str e)],
    message := "Internal error in " ++ checkName ++ ": " ++ e }

/-- Named list of the eight check computations, in the order `validate`
runs and reports them. -/
def checkPairs (lesson_data : Json) (grade subject : String)
    (exclusions prerequisites : List String) (context_narrative : String)
    (kb_definitions : List (String × String)) :
    List (String × Except String CheckResult) :=
  [("language_ceiling", language_ceiling_check lesson_data grade),
   ("blooms_distribution", blooms_distribution_check lesson_data grade),
   ("interaction_type", interaction_type_check lesson_data grade),
   ("definition_alignment", definition_check lesson_data kb_definitions),
   ("story_integration", story_integration_check lesson_data context_narrative),
   ("audio_pacing", audio_pacing_check lesson_data),
   ("feedback_structure", feedback_structure_check lesson_data),
   ("content_isolation", content_isolation_check lesson_data exclusions prerequisites)]

/-- Model of `LessonValidator.validate`: run the eight checks, converting any
raised exception into a failed CheckResult, add each result to the report,
then compute the score.  Optional parameters model the `x or default`
normalisation at the call sites of the checks. -/
def validate (lesson_data : Json) (grade subject : String)
    (exclusions prerequisites : Option (List String))
    (context_narrative : Option String)
    (kb_definitions : Option (List (String × String))) : ValidationReport :=
  let pairs := checkPairs lesson_data grade subject
    (exclusions.getD []) (prerequisites.getD [])
    (context_narrative.getD "") (kb_definitions.getD [])
  let report := pairs.foldl
    (fun rep pr =>
      addCheck rep (match pr.2 with
        | .ok c => c
        | .error e => errCheckResult pr.1 e))
    {}
  computeScore report

/-! Knowledge-base loader (`src/services/kb_loader.py`).  The document store
(`kb_path` directory) is modelled as an association list of file name and
content; `hashlib.sha256` is implemented below over UTF-8 bytes. -/

/-- Mask to 32 bits. -/
def w32 (n : Nat) : Nat := n % 4294967296

/-- Right rotation of a 32-bit word. -/
def rotr (n x : Nat) : Nat := w32 ((x >>> n) ||| (x <<< (32 - n)))

/-- SHA-256 round constants. -/
def sha256K : List Nat :=
  [1116352408, 1899447441, 3049323471, 3921009573, 961987163,
   1508970993, 2453635748, 2870763221, 3624381080, 310598401,
   607225278, 1426881987, 1925078388, 2162078206, 2614888103,
   3248222580, 3835390401, 4022224774, 264347078, 604807628,
   770255983, 1249150122, 1555081692, 1996064986, 2554220882,
   2821834349, 2952996808, 3210313671, 3336571891, 3584528711,
   113926993, 338241895, 666307205, 773529912, 1294757372,
   1396182291, 1695183700, 1986661051, 2177026350, 2456956037,
   2730485921, 2820302411, 3259730800, 3345764771, 3516065817,
   3600352804, 4094571909, 275423344, 430227734, 506948616,
   659060556, 883997877, 958139571, 1322822218, 1537002063,
   1747873779, 1955562222, 2024104815, 2227730452, 2361852424,
   2428436474, 2756734187, 3204031479, 3329325298]

/-- SHA-256 initial hash state. -/
def sha256H0 : List Nat :=
  [1779033703, 3144134277, 1013904242, 2773480762, 1359893119,
   2600822924, 528734635, 1541459225]

/-- Big-endian 4-byte grouping of a byte list into 32-bit words. -/
def bytesToWords : List Nat → List Nat
  | b0 :: b1 :: b2 :: b3 :: rest =>
    (b0 * 16777216 + b1 * 65536 + b2 * 256 + b3) :: bytesToWords rest
  | _ => []

/-- Big-endian byte rendering of a Nat over the given number of bytes. -/
def natToBytesBE (len n : Nat) : List Nat :=
  (List.range len).map (fun i => n / 256 ^ (len - 1 - i) % 256)

/-- SHA-256 message padding: append 0x80, zeros to 56 mod 64, then the
bit length over 8 big-endian bytes. -/
def sha256pad (msg : List Nat) : List Nat :=
  let l := msg.length
  let zeros := (64 + 55 - (l % 64)) % 64
  msg ++ [128] ++ List.replicate zeros 0 ++ natToBytesBE 8 (l * 8)

/-- Split a byte list into 64-byte blocks. -/
def chunk64Aux : Nat → List Nat → List (List Nat)
  | 0, _ => []
  | _ + 1, [] => []
  | fuel + 1, b :: rest => ((b :: rest).take 64) :: chunk64Aux fuel ((b :: rest).drop 64)

/-- Split a byte list into 64-byte blocks. -/
def chunk64 (l : List Nat) : List (List Nat) :=
  chunk64Aux (l.length + 1) l

/-- SHA-256 message-schedule extension from 16 to 64 words. -/
def extendW (w16 : List Nat) : List Nat :=
  (List.range 48).foldl
    (fun w _ =>
      let i := w.length
      let x15 := w.getD (i - 15) 0
      let x2 := w.getD (i - 2) 0
      let s0 := (rotr 7 x15) ^^^ (rotr 18 x15) ^^^ (x15 >>> 3)
      let s1 := (rotr 17 x2) ^^^ (rotr 19 x2) ^^^ (x2 >>> 10)
      w ++ [w32 (w.getD (i - 16) 0 + s0 + w.getD (i - 7) 0 + s1)])
    w16

/-- One SHA-256 compression round over the eight-word working state. -/
def compressRound (st : List Nat) (kw : Nat × Nat) : List Nat :=
  let a := st.getD 0 0
  let b := st.getD 1 0
  let c := st.getD 2 0
  let d := st.getD 3 0
  let e := st.getD 4 0
  let f := st.getD 5 0
  let g := st.getD 6 0
  let h := st.getD 7 0
  let s1 := (rotr 6 e) ^^^ (rotr 11 e) ^^^ (rotr 25 e)
  let ch := (e &&& f) ^^^ ((4294967295 - e) &&& g)
  let temp1 := w32 (h + s1 + ch + kw.1 + kw.2)
  let s0 := (rotr 2 a) ^^^ (rotr 13 a) ^^^ (rotr 22 a)
  let maj := (a &&& b) ^^^ (a &&& c) ^^^ (b &&& c)
  let temp2 := w32 (s0 + maj)
  [w32 (temp1 + temp2), a, b, c, w32 (d + temp1), e, f, g]

/-- SHA-256 compression of one 64-byte block into the hash state. -/
def sha256compress (h : List Nat) (block : List Nat) : List Nat :=
  let w := extendW (bytesToWords block)
  let st := (sha256K.zip w).foldl compressRound h
  (h.zip st).map (fun p => w32 (p.1 + p.2))

/-- Hexadecimal digit. -/
def hexDigit (n : Nat) : Char :=
  if n < 10 then Char.ofNat (48 + n) else Char.ofNat (87 + n)

/-- Lowercase 8-hex-digit rendering of a 32-bit word. -/
def toHex8 (w : Nat) : String :=
  String.mk ((List.range 8).map (fun i => hexDigit (w / 16 ^ (7 - i) % 16)))

/-- SHA-256 hex digest of a byte list, as `hashlib.sha256(..).hexdigest()`. -/
def sha256hexBytes (msg : List Nat) : String :=
  let hh := (chunk64 (sha256pad msg)).foldl sha256compress sha256H0
  joinSep "" (hh.map toHex8)

/-- UTF-8 encoding of one character. -/
def utf8Encode (c : Char) : List Nat :=
  let n := c.toNat
  if n < 128 then [n]
  else if n < 2048 then [192 + n / 64, 128 + n % 64]
  else if n < 65536 then [224 + n / 4096, 128 + n / 64 % 64, 128 + n % 64]
  else [240 + n / 262144, 128 + n / 4096 % 64, 128 + n / 64 % 64, 128 + n % 64]

/-- UTF-8 bytes of a string, as `str.encode("utf-8")`. -/
def strBytes (s : String) : List Nat :=
  (s.toList.map utf8Encode).flatten

/-- Lexicographic code-point comparison of character lists, the order Python
string comparison uses. -/
def charListLe : List Char → List Char → Bool
  | [], _ => true
  | _ :: _, [] => false
  | c :: cs, d :: ds =>
    if c.toNat < d.toNat then true
    else if d.toNat < c.toNat then false
    else charListLe cs ds

/-- Python string order `a <= b`. -/
def strLeB (a b : String) : Bool :=
  charListLe a.toList b.toList

/-- Sorting of strings in lexicographic code-point order, as Python
`sorted` on `str` (stable). -/
def insSortStr (l : List String) : List String :=
  List.insertionSort (fun a b => strLeB a b = true) l

/-- Stable sorting of pairs by first component (Python `sorted(path.glob(..))`
reads files in sorted name order). -/
def insSortPairs (l : List (String × String)) : List (String × String) :=
  List.insertionSort (fun a b => strLeB a.1 b.1 = true) l

/-- Model of `KBLoader._compute_checksum`: SHA-256 over
`name-bytes ++ content-bytes` for each name in sorted order. -/
def computeChecksum (raw_content : List (String × String)) : String :=
  let names := insSortStr (raw_content.map Prod.fst)
  sha256hexBytes
    ((names.map (fun name =>
      strBytes name ++ strBytes (dictGetD raw_content name ""))).flatten)

/-! Parsers of `kb_loader.py` (hand-compiled from the regular expressions). -/

/-- Case-insensitive literal match: consumes the pattern, returns the rest. -/
def matchLitCI : List Char → List Char → Option (List Char)
  | [], cs => some cs
  | _ :: _, [] => none
  | p :: ps, c :: cs => if p.toLower == c.toLower then matchLitCI ps cs else none

/-- Nat value of a digit run. -/
def natOfDigits (ds : List Char) : Nat :=
  ds.foldl (fun a c => a * 10 + (c.toNat - 48)) 0

/-- Attempted match, at the current position, of the pattern
`lit` + `\s*` + `\d+` + en-dash-or-hyphen + `\s*` + `(\d+)` + `\s*` + `tailLit`
(case-insensitive), returning the captured upper bound.  This compiles the
regexes for `Maximum sentence length: X-Y words` and `New words per lesson:
X-Y` (with `tailLit` empty). -/
def rangeUpperAt (lit tailLit : String) (cs : List Char) : Option Nat :=
  match matchLitCI lit.toList cs with
  | none => none
  | some r1 =>
    let r2 := r1.dropWhile pyWs
    let d1 := r2.takeWhile Char.isDigit
    if d1.isEmpty then none
    else
      match r2.drop d1.length with
      | [] => none
      | dash :: r3 =>
        if dash == '-' || dash == Char.ofNat 8211 then
          let r4 := r3.dropWhile pyWs
          let d2 := r4.takeWhile Char.isDigit
          if d2.isEmpty then none
          else
            let r5 := (r4.drop d2.length).dropWhile pyWs
            match matchLitCI tailLit.toList r5 with
            | some _ => some (natOfDigits d2)
            | none => none
        else none

/-- Leftmost search for `rangeUpperAt` (Python `re.search`). -/
def searchRangeUpper (lit tailLit : String) : Nat → List Char → Option Nat
  | 0, _ => none
  | _ + 1, [] => none
  | fuel + 1, c :: cs =>
    match rangeUpperAt lit tailLit (c :: cs) with
    | some n => some n
    | none => searchRangeUpper lit tailLit fuel cs

/-- Leftmost search for the connectors line
`Allowed connectors:\s*(.+?)$` (case-insensitive, multiline): skip
whitespace after the colon, then capture to the end of that line. -/
def searchConnLine : Nat → List Char → Option String
  | 0, _ => none
  | _ + 1, [] => none
  | fuel + 1, c :: cs =>
    match matchLitCI "Allowed connectors:".toList (c :: cs) with
    | some r1 =>
      let r2 := r1.dropWhile pyWs
      match r2 with
      | [] => searchConnLine fuel cs
      | _ => some ((r2.takeWhile (fun ch => ch ≠ '\n')).asString)
    | none => searchConnLine fuel cs

/-- Closed vocabulary of the quoted-connector regex alternation. -/
def connAlternatives : List String :=
  ["and", "but", "or", "so", "because", "when", "if", "although"]

/-- Canonical connector list substituted when the line mentions `all`. -/
def allConnectors : List String :=
  ["and", "but", "or", "so", "because", "when", "if", "although",
   "however", "therefore"]

/-- Attempted match of `"(and|but|or|so|because|when|if|although),?"`
(case-insensitive) at the current position, returning the captured
connector (original case) and the rest after the match. -/
def connAt (cs : List Char) : Option (String × List Char) :=
  match cs with
  | [] => none
  | quote :: r1 =>
    if quote == '"' then
      (connAlternatives.filterMap (fun alt =>
        match matchLitCI alt.toList r1 with
        | none => none
        | some r2 =>
          let captured := (r1.take alt.length).asString
          let r3 := match r2 with
            | ',' :: rr => rr
            | other => other
          match r3 with
          | '"' :: rest2 => some (captured, rest2)
          | _ => none)).head?
    else none

/-- Scanner for `re.findall` of the quoted-connector pattern. -/
def findConnAux : Nat → List Char → List String
  | 0, _ => []
  | _ + 1, [] => []
  | fuel + 1, c :: cs =>
    match connAt (c :: cs) with
    | some (w, rest) => w :: findConnAux fuel rest
    | none => findConnAux fuel cs

/-- Word-boundary test `\ball\b` (case-insensitive) on the connectors line. -/
def hasWordAll (s : String) : Bool :=
  ((findWordRuns s).map pyLower).contains "all"

/-- Split of a body into per-grade sections on the multiline heading regex
`^## Grade (\w+)`, as `re.split` with one capture group: the preamble is
dropped and each grade code is paired with the text up to the next heading. -/
def gradeSplitAux :
    Nat → List Char → Bool → Option (String × List Char) →
    List (String × String) → List (String × String)
  | 0, _, _, cur, acc =>
    (match cur with
     | none => acc
     | some (g, rb) => (g, rb.reverse.asString) :: acc).reverse
  | _ + 1, [], _, cur, acc =>
    (match cur with
     | none => acc
     | some (g, rb) => (g, rb.reverse.asString) :: acc).reverse
  | fuel + 1, c :: cs, atStart, cur, acc =>
    if atStart && ("## Grade ".toList).isPrefixOf (c :: cs) &&
        (((c :: cs).drop 9).headD ' ' |> pyWord) then
      let g := ((c :: cs).drop 9).takeWhile pyWord
      let rest := ((c :: cs).drop 9).drop g.length
      gradeSplitAux fuel rest false (some (g.asString, []))
        (match cur with
         | none => acc
         | some (g2, rb) => (g2, rb.reverse.asString) :: acc)
    else
      gradeSplitAux fuel cs (c == '\n')
        (match cur with
         | none => none
         | some (g2, rb) => some (g2, c :: rb))
        acc

/-- String version of `gradeSplitAux` (initial position is a line start). -/
def gradeSections (content : String) : List (String × String) :=
  gradeSplitAux (content.length + 1) content.toList true none []

/-- Ordered-dict insert with overwrite (`d[k] = v` keeps the original
insertion position of an existing key). -/
def upsert {α : Type} : List (String × α) → String → α → List (String × α)
  | [], k, v => [(k, v)]
  | (k2, v2) :: rest, k, v =>
    if k2 = k then (k2, v) :: rest else (k2, v2) :: upsert rest k v

/-- Option-valued association lookup. -/
def assocLookup {α : Type} : List (String × α) → String → Option α
  | [], _ => none
  | (k2, v) :: rest, k => if k2 = k then some v else assocLookup rest k

/-- Model of `kb_loader.LanguageCeiling`. -/
structure LanguageCeiling where
  grade : String
  max_sentence_length : Nat
  max_new_vocab : Nat
  allowed_connectors : List String
  can_use_because : Bool
  deriving Repr, DecidableEq

/-- Model of `KBLoader._parse_language_guidelines`. -/
def parseLanguageGuidelines (content : String) :
    List (String × LanguageCeiling) :=
  if content = "" then []
  else
    (gradeSections content).foldl
      (fun acc gs =>
        let grade_code := pyStrip gs.1
        let body := gs.2.toList
        let max_sentence :=
          (searchRangeUpper "Maximum sentence length:" "words"
            (body.length + 1) body).getD 18
        let max_vocab :=
          (searchRangeUpper "New words per lesson:" ""
            (body.length + 1) body).getD 10
        let connectors :=
          match searchConnLine (body.length + 1) body with
          | some conn_line =>
            if hasWordAll conn_line then allConnectors
            else findConnAux (conn_line.length + 1) conn_line.toList
          | none => []
        let connectors2 := (connectors.map pyLower).eraseDups
        upsert acc grade_code
          { grade := grade_code
            max_sentence_length := max_sentence
            max_new_vocab := max_vocab
            allowed_connectors := connectors2
            can_use_because := connectors2.contains "because" })
      []

/-- Grade-code character class `[K1-5]`. -/
def gradeChar (c : Char) : Bool :=
  c == 'K' || (49 ≤ c.toNat && c.toNat ≤ 53)

/-- Attempted match of one numeric table cell `\s*(\d+)\s*\|`. -/
def numCell (cs : List Char) : Option (Nat × List Char) :=
  let a := cs.dropWhile pyWs
  let d := a.takeWhile Char.isDigit
  if d.isEmpty then none
  else
    match (a.drop d.length).dropWhile pyWs with
    | '|' :: rr => some (natOfDigits d, rr)
    | _ => none

/-- Attempted match, at the current position, of a Bloom table row
`\|\s*([K1-5])\s*\|` followed by five numeric cells. -/
def bloomRowAt (cs : List Char) : Option ((String × BloomCounts) × List Char) :=
  match cs with
  | '|' :: r1 =>
    match r1.dropWhile pyWs with
    | [] => none
    | gc :: r3 =>
      if gradeChar gc then
        match r3.dropWhile pyWs with
        | '|' :: r5 =>
          match numCell r5 with
          | none => none
          | some (n1, c1) =>
            match numCell c1 with
            | none => none
            | some (n2, c2) =>
              match numCell c2 with
              | none => none
              | some (n3, c3) =>
                match numCell c3 with
                | none => none
                | some (n4, c4) =>
                  match numCell c4 with
                  | none => none
                  | some (n5, c5) =>
                    some ((String.mk [gc], ⟨n1, n2, n3, n4, n5⟩), c5)
        | _ => none
      else none
  | _ => none

/-- Scanner for `re.finditer` over Bloom table rows. -/
def bloomRowsAux : Nat → List Char → List (String × BloomCounts)
  | 0, _ => []
  | _ + 1, [] => []
  | fuel + 1, c :: cs =>
    match bloomRowAt (c :: cs) with
    | some (row, rest) => row :: bloomRowsAux fuel rest
    | none => bloomRowsAux fuel cs

/-- Model of `KBLoader._parse_bloom_distributions`. -/
def parseBloomDistributions (content : String) : List (String × BloomCounts) :=
  if content = "" then []
  else
    (bloomRowsAux (content.length + 1) content.toList).foldl
      (fun acc row => upsert acc row.1 row.2) []

/-- First index of a literal substring, as Python `str.find` (for the
non-negative case; absence is `none`). -/
def findSubstrIdxAux (pat : List Char) : Nat → List Char → Nat → Option Nat
  | 0, _, _ => none
  | _ + 1, [], _ => none
  | fuel + 1, c :: cs, i =>
    if pat.isPrefixOf (c :: cs) then some i
    else findSubstrIdxAux pat fuel cs (i + 1)

/-- String version of `findSubstrIdxAux`. -/
def findSubstrIdx (s pat : String) : Option Nat :=
  findSubstrIdxAux pat.toList (s.length + 1) s.toList 0

/-- Split on commas (Python `str.split(",")`). -/
def splitCommaAux : List Char → List Char → List String
  | [], cur => [cur.reverse.asString]
  | c :: cs, cur =>
    if c == ',' then cur.reverse.asString :: splitCommaAux cs []
    else splitCommaAux cs (c :: cur)

/-- Comma-separated items of a category line, stripped, empties dropped. -/
def commaItems (s : String) : List String :=
  ((splitCommaAux s.toList []).map pyStrip).filter (fun t => t ≠ "")

/-- Attempted match, at the current position, of a bold category line
`\*\*[^:]+:\*\*\s*(.+)`, returning the captured items text and the rest
after the match. -/
def catAt (cs : List Char) : Option (String × List Char) :=
  match cs with
  | '*' :: '*' :: r1 =>
    let name := r1.takeWhile (fun c => c ≠ ':')
    if name.isEmpty then none
    else
      match r1.drop name.length with
      | ':' :: '*' :: '*' :: r2 =>
        let r3 := r2.dropWhile pyWs
        match r3 with
        | [] => none
        | _ =>
          let captured := r3.takeWhile (fun c => c ≠ '\n')
          some (captured.asString, r3.drop captured.length)
      | _ => none
  | _ => none

/-- Scanner for `re.finditer` over bold category lines. -/
def catLinesAux : Nat → List Char → List String
  | 0, _ => []
  | _ + 1, [] => []
  | fuel + 1, c :: cs =>
    match catAt (c :: cs) with
    | some (captured, rest) => captured :: catLinesAux fuel rest
    | none => catLinesAux fuel cs

/-- Allowed-types extraction for one grade body of
`digital_interactions.md`. -/
def interactionsOfBody (body : String) : List String :=
  match findSubstrIdx body "### Allowed Types" with
  | none => []
  | some idx =>
    let allowed_body := (body.toList.drop idx).asString
    let afterHeader := (allowed_body.toList.drop 17).asString
    let trimmed :=
      match findSubstrIdx afterHeader (String.mk ['\n', '#', '#', '#']) with
      | some j => (allowed_body.toList.take (17 + j)).asString
      | none => allowed_body
    ((catLinesAux (trimmed.length + 1) trimmed.toList).map commaItems).flatten

/-- Model of `KBLoader._parse_allowed_interactions`. -/
def parseAllowedInteractions (content : String) : List (String × List String) :=
  if content = "" then []
  else
    (gradeSections content).foldl
      (fun acc gs =>
        let grade_code := pyStrip gs.1
        let types := interactionsOfBody gs.2
        if types.isEmpty then acc else upsert acc grade_code types)
      []

/-! Loader state machine. -/

/-- Typed errors raised by the loader: `KBLoadError` from
`src/exceptions.py` (carrying `missing_files`), and Python `KeyError` from
direct dictionary indexing. -/
inductive KBErr where
  | kbLoadError (message : String) (missing_files : List String)
  | keyError (key : String)
  deriving Repr, DecidableEq

/-- Model of `Settings.kb_required_files`. -/
def kb_required_files : List String :=
  ["language_guidelines.md", "NCERT_Pedagogical_Style_Knowledge.md",
   "digital_interactions.md", "question_bank.md"]

/-- Model of `Settings.kb_expected_files`. -/
def kb_expected_files : List String :=
  ["language_guidelines.md", "NCERT_Pedagogical_Style_Knowledge.md",
   "digital_interactions.md", "question_bank.md",
   "definitions_and_examples.md", "KB_MASTER_GUIDE.md"]

/-- Model of `kb_loader.KBData`. -/
structure KBData where
  version : String
  checksum : String
  files_loaded : List String
  raw_content : List (String × String)
  language_ceilings : List (String × LanguageCeiling)
  bloom_distributions : List (String × BloomCounts)
  allowed_interactions : List (String × List String)
  deriving Repr, DecidableEq

/-- Model of a `KBLoader` instance: the directory path (used only in error
messages), the document store visible at `kb_path`, and the memory cache. -/
structure KBLoader where
  kb_path : String
  fs : List (String × String)
  cache : Option KBData
  deriving Repr, DecidableEq

/-- Python `str.endswith(suffix)`. -/
def pyEndsWith (s suffix : String) : Bool :=
  suffix.toList.reverse.isPrefixOf s.toList.reverse

/-- Model of `KBLoader._read_files`: all `.md` files of the store, in sorted
name order (reads never fail in the model; `OSError` is logged and skipped
in the source). -/
def readFiles (fs : List (String × String)) : List (String × String) :=
  insSortPairs (fs.filter (fun p => pyEndsWith p.1 ".md"))

/-- Model of `KBLoader.load`: return the cache when present; otherwise
validate required files (raising `KBLoadError` listing the missing ones),
read and checksum the store, parse the three families, and cache. -/
def kbLoad (l : KBLoader) : Except KBErr (KBData × KBLoader) :=
  match l.cache with
  | some kb => .ok (kb, l)
  | none =>
    let missing :=
      kb_required_files.filter (fun f => !((l.fs.map Prod.fst).contains f))
    if missing.isEmpty then
      let raw := readFiles l.fs
      let kb : KBData :=
        { version := "1.0"
          checksum := computeChecksum raw
          files_loaded := insSortStr (raw.map Prod.fst)
          raw_content := raw
          language_ceilings :=
            parseLanguageGuidelines (dictGetD raw "language_guidelines.md" "")
          bloom_distributions :=
            parseBloomDistributions
              (dictGetD raw "NCERT_Pedagogical_Style_Knowledge.md" "")
          allowed_interactions :=
            parseAllowedInteractions
              (dictGetD raw "digital_interactions.md" "") }
      .ok (kb, { l with cache := some kb })
    else
      .error (.kbLoadError
        ("Required KB files missing from " ++ l.kb_path ++ ": " ++
          pyReprStrList missing)
        missing)

/-- Model of `KBLoader.reload`: clear the cache, then `load`. -/
def kbReload (l : KBLoader) : Except KBErr (KBData × KBLoader) :=
  kbLoad { l with cache := none }

/-- Model of `KBLoader.get_language_ceiling`: load, substitute grade "5"
when the requested grade is absent, then index the table (Python raises
`KeyError` when the substituted grade is itself absent). -/
def getLanguageCeiling (l : KBLoader) (grade : String) :
    Except KBErr (LanguageCeiling × KBLoader) :=
  match kbLoad l with
  | .error e => .error e
  | .ok (kb, l2) =>
    let g := if (assocLookup kb.language_ceilings grade).isSome then grade else "5"
    match assocLookup kb.language_ceilings g with
    | some c => .ok (c, l2)
    | none => .error (.keyError g)

/-- Model of `KBLoader.get_bloom_distribution` (value level; the `dict(...)`
copy on return is modelled separately for reference semantics). -/
def getBloomDistribution (l : KBLoader) (grade : String) :
    Except KBErr (BloomCounts × KBLoader) :=
  match kbLoad l with
  | .error e => .error e
  | .ok (kb, l2) =>
    let g := if (assocLookup kb.bloom_distributions grade).isSome then grade else "3"
    match assocLookup kb.bloom_distributions g with
    | some c => .ok (c, l2)
    | none => .error (.keyError g)

/-- Model of `KBLoader.get_allowed_interactions` (value level; the
`list(...)` copy on return is modelled separately). -/
def getAllowedInteractions (l : KBLoader) (grade : String) :
    Except KBErr (List String × KBLoader) :=
  match kbLoad l with
  | .error e => .error e
  | .ok (kb, l2) =>
    let g := if (assocLookup kb.allowed_interactions grade).isSome then grade else "5"
    match assocLookup kb.allowed_interactions g with
    | some c => .ok (c, l2)
    | none => .error (.keyError g)

/-! Analysis helpers over the embedded functions. -/

/-- Status of a check computation: the status of the result when it returns,
a distinguished marker when it raises. -/
def exceptStatus : Except String CheckResult → String
  | .ok c => c.status
  | .error _ => "raised"

/-- Conversion applied by `validate` to each named check computation:
results pass through, exceptions become a failed CheckResult. -/
def convCheck (pr : String × Except String CheckResult) : CheckResult :=
  match pr.2 with
  | .ok c => c
  | .error e => errCheckResult pr.1 e

/-- Fixed report order of the eight check names. -/
def checkNames : List String :=
  ["language_ceiling", "blooms_distribution", "interaction_type",
   "definition_alignment", "story_integration", "audio_pacing",
   "feedback_structure", "content_isolation"]

/-- Parsed snapshot of a loader when `load` succeeds. -/
def loadedData (l : KBLoader) : Option KBData :=
  match kbLoad l with
  | .ok p => some p.1
  | .error _ => none

/-- Value returned by `get_language_ceiling`, when it does not raise. -/
def ceilingValue (l : KBLoader) (grade : String) : Option LanguageCeiling :=
  match getLanguageCeiling l grade with
  | .ok p => some p.1
  | .error _ => none

/-- Value returned by `get_bloom_distribution`, when it does not raise. -/
def bloomValue (l : KBLoader) (grade : String) : Option BloomCounts :=
  match getBloomDistribution l grade with
  | .ok p => some p.1
  | .error _ => none

/-- Value returned by `get_allowed_interactions`, when it does not raise. -/
def interValue (l : KBLoader) (grade : String) : Option (List String) :=
  match getAllowedInteractions l grade with
  | .ok p => some p.1
  | .error _ => none

/-! Transformation of claim C9: delete every `[Beat]` and `[Pause]` marker
from the string leaves of a lesson. -/

/-- Deletion of both pacing markers from one string. -/
def stripMarkers (s : String) : String :=
  removeSub "[Pause]" (removeSub "[Beat]" s)

mutual

/-- Marker deletion applied to every string leaf of a lesson tree. -/
def stripJson : Json → Json
  | .str s => .str (stripMarkers s)
  | .num n => .num n
  | .bool b => .bool b
  | .null => .null
  | .arr xs => .arr (stripJsonList xs)
  | .obj fs => .obj (stripJsonFields fs)

/-- Element-wise `stripJson` over a list. -/
def stripJsonList : List Json → List Json
  | [] => []
  | x :: xs => stripJson x :: stripJsonList xs

/-- Value-wise `stripJson` over dict entries. -/
def stripJsonFields : List (String × Json) → List (String × Json)
  | [] => []
  | (k, v) :: fs => (k, stripJson v) :: stripJsonFields fs

end

/-! Spec-side reading of claim C5, used to compare the claimed ordering rule
(`the last three quiz items`) against the implemented one (`quiz[7:10]`). -/

/-- Wellformedness of a quiz item as the Bloom counting loop requires: a
dict whose `bloom_level`, when present, is a string. -/
def quizItemWF (q : Json) : Bool :=
  match q with
  | .obj qf =>
    match (assocFind qf "bloom_level").getD (.str "") with
    | .str _ => true
    | _ => false
  | _ => false

/-- Normalised Bloom label of a wellformed quiz item. -/
def itemLabel (q : Json) : String :=
  match q with
  | .obj qf =>
    match (assocFind qf "bloom_level").getD (.str "") with
    | .str s => pyStrip (pyUpper s)
    | _ => ""
  | _ => ""

/-- Quiz labels of a lesson, as the claim reads them. -/
def lessonQuizLabels (lesson : Json) : List String :=
  match lesson with
  | .obj fs =>
    match (assocFind fs "quick_quiz").getD (.arr []) with
    | .arr items => items.map itemLabel
    | _ => []
  | _ => []

/-- Stated from the words of claim C5: the check should fail iff the quiz is
absent or empty, or the per-level counts differ from the grade table, or any
of the first three items is outside the two lowest levels, or any of the
LAST three items is outside the three highest levels. -/
def specBloomsShouldFail (lesson : Json) (grade : String) : Bool :=
  let labels := lessonQuizLabels lesson
  let expected := bloomDistributionGet grade
  labels.isEmpty ||
  !(labels.foldl bloomIncr ⟨0, 0, 0, 0, 0⟩ == expected) ||
  !((labels.take 3).all (fun l => l == "L1" || l == "L2")) ||
  !((labels.reverse.take 3).all (fun l => l == "L3" || l == "L4" || l == "L5"))

/-- Pure form of the `lowIssues` loop over labels. -/
def lowIssuesPure : List String → Nat → List String
  | [], _ => []
  | l :: ls, i =>
    let rest := lowIssuesPure ls (i + 1)
    if l ≠ "L1" ∧ l ≠ "L2" then
      ("Q" ++ toString i ++ " is " ++ l ++ ", expected L1 or L2") :: rest
    else rest

/-- Pure form of the `highIssues` loop over labels. -/
def highIssuesPure : List String → Nat → List String
  | [], _ => []
  | l :: ls, i =>
    let rest := highIssuesPure ls (i + 1)
    if l ≠ "L3" ∧ l ≠ "L4" ∧ l ≠ "L5" then
      ("Q" ++ toString i ++ " is " ++ l ++ ", expected L3-L5") :: rest
    else rest

/-! Reference-semantics model for claim C10: the Python objects returned by
the three grade lookups, on an addressable heap, distinguishing the
defensive copies `dict(kb.bloom_distributions[grade])` and
`list(kb.allowed_interactions[grade])` from the aliased
`kb.language_ceilings[grade]`. -/

/-- Address-keyed lookup. -/
def natLookup {α : Type} : List (Nat × α) → Nat → Option α
  | [], _ => none
  | (a2, v) :: rest, a => if a2 = a then some v else natLookup rest a

/-- Address-keyed store (insert or overwrite). -/
def natUpsert {α : Type} : List (Nat × α) → Nat → α → List (Nat × α)
  | [], a, v => [(a, v)]
  | (a2, v2) :: rest, a, v =>
    if a2 = a then (a2, v) :: rest else (a2, v2) :: natUpsert rest a v

/-- Heap of mutable dict/list objects referenced by the cached snapshot and
by callers. -/
structure RefHeap where
  bloomCells : List (Nat × BloomCounts)
  interCells : List (Nat × List String)
  ceilCells : List (Nat × LanguageCeiling)
  fresh : Nat
  deriving Repr

/-- Cached snapshot holding references (addresses) to its per-grade table
objects. -/
structure KBDataRef where
  language_ceilings : List (String × Nat)
  bloom_distributions : List (String × Nat)
  allowed_interactions : List (String × Nat)
  deriving Repr

/-- Reference-semantics model of `get_bloom_distribution`: resolve the grade
(fallback "3"), then return `dict(...)` — a freshly allocated copy of the
cached cell. -/
def getBloomDistributionRef (h : RefHeap) (kb : KBDataRef) (grade : String) :
    Option (RefHeap × Nat) :=
  let g := if (assocLookup kb.bloom_distributions grade).isSome then grade else "3"
  match assocLookup kb.bloom_distributions g with
  | none => none
  | some addr =>
    match natLookup h.bloomCells addr with
    | none => none
    | some v =>
      some ({ h with bloomCells := natUpsert h.bloomCells h.fresh v,
                     fresh := h.fresh + 1 }, h.fresh)

/-- Reference-semantics model of `get_allowed_interactions`: resolve the
grade (fallback "5"), then return `list(...)` — a freshly allocated copy. -/
def getAllowedInteractionsRef (h : RefHeap) (kb : KBDataRef) (grade : String) :
    Option (RefHeap × Nat) :=
  let g := if (assocLookup kb.allowed_interactions grade).isSome then grade else "5"
  match assocLookup kb.allowed_interactions g with
  | none => none
  | some addr =>
    match natLookup h.interCells addr with
    | none => none
    | some v =>
      some ({ h with interCells := natUpsert h.interCells h.fresh v,
                     fresh := h.fresh + 1 }, h.fresh)

/-- Reference-semantics model of `get_language_ceiling`: resolve the grade
(fallback "5") and return the cached object itself — no copy, no
allocation. -/
def getLanguageCeilingRef (kb : KBDataRef) (grade : String) : Option Nat :=
  let g := if (assocLookup kb.language_ceilings grade).isSome then grade else "5"
  assocLookup kb.language_ceilings g

/-- Caller mutation of a returned bloom dict object. -/
def writeBloomCell (h : RefHeap) (a : Nat) (v : BloomCounts) : RefHeap :=
  { h with bloomCells := natUpsert h.bloomCells a v }

/-- Caller mutation of a returned interaction list object. -/
def writeInterCell (h : RefHeap) (a : Nat) (v : List String) : RefHeap :=
  { h with interCells := natUpsert h.interCells a v }

/-- Caller mutation of a returned `LanguageCeiling` object. -/
def writeCeilCell (h : RefHeap) (a : Nat) (v : LanguageCeiling) : RefHeap :=
  { h with ceilCells := natUpsert h.ceilCells a v }

/-- Bloom table values of the snapshot, as seen through the heap. -/
def snapshotBloom (h : RefHeap) (kb : KBDataRef) (g : String) :
    Option BloomCounts :=
  (assocLookup kb.bloom_distributions g).bind (natLookup h.bloomCells)

/-- Interaction table values of the snapshot, as seen through the heap. -/
def snapshotInter (h : RefHeap) (kb : KBDataRef) (g : String) :
    Option (List String) :=
  (assocLookup kb.allowed_interactions g).bind (natLookup h.interCells)

/-- Ceiling table values of the snapshot, as seen through the heap. -/
def snapshotCeil (h : RefHeap) (kb : KBDataRef) (g : String) :
    Option LanguageCeiling :=
  (assocLookup kb.language_ceilings g).bind (natLookup h.ceilCells)

/-- Value observed by a caller performing the bloom lookup. -/
def bloomRefValue (h : RefHeap) (kb : KBDataRef) (g : String) :
    Option BloomCounts :=
  match getBloomDistributionRef h kb g with
  | some (h2, a) => natLookup h2.bloomCells a
  | none => none

/-- Value observed by a caller performing the interactions lookup. -/
def interRefValue (h : RefHeap) (kb : KBDataRef) (g : String) :
    Option (List String) :=
  match getAllowedInteractionsRef h kb g with
  | some (h2, a) => natLookup h2.interCells a
  | none => none

/-! Concrete data used by witnesses and counterexamples. -/

/-- Quiz item with the given Bloom label and four-word feedback strings. -/
def mkQuizItem (lv : String) : Json :=
  .obj [("bloom_level", .str lv),
        ("feedback_correct", .str "Yes that is right."),
        ("feedback_incorrect", .str "No that is wrong.")]

/-- Fields of a grade-3 lesson on which all eight checks pass (markers live
only in the `conclusion` leaf). -/
def baseLessonFields : List (String × Json) :=
  [("opening_narration", .obj [("text", .str "Hello dog.")]),
   ("narrated_explanation", .arr [.obj [("teacher_explains", .str "Dogs are fun.")]]),
   ("interactive_activity", .obj
     [("type", .str "Drag and Drop"), ("bloom_level", .str "L3"),
      ("feedback_hint_1", .str "Try looking again."),
      ("feedback_hint_2", .str "Look at the dog."),
      ("feedback_reveal", .str "It goes here because dogs.")]),
   ("quick_quiz", .arr
     (["L1", "L1", "L2", "L2", "L2", "L3", "L3", "L3", "L4", "L5"].map mkQuizItem)),
   ("conclusion", .str "Nice work. [Pause] Bye. [Beat] End.")]

/-- Lesson passing all eight checks. -/
def lessonOK : Json := .obj baseLessonFields

/-- Lesson passing all eight checks whose extra leaf contains the excluded
concept split by a `[Beat]` marker. -/
def lessonBad : Json :=
  .obj (baseLessonFields ++ [("story_hook", .str "We saw a ca[Beat]t.")])

/-- Exclusion list used with the concrete lessons. -/
def exclCat : List String := ["cat"]

/-- KB definitions used with the concrete lessons. -/
def kbDefsDog : List (String × String) := [("dog", "A dog is an animal")]

/-- Eleven-item quiz whose extra item carries an empty Bloom label. -/
def lessonQuiz11 : Json :=
  .obj [("quick_quiz", .arr
    (["L1", "L1", "L2", "L2", "L2", "L3", "L3", "L3", "L4", "L5", ""].map mkQuizItem))]

/-- Check list of the 6 passed, 1 warning, 1 failed example report. -/
def reportC611 : List CheckResult :=
  [{ name := "a", status := "passed" }, { name := "b", status := "passed" },
   { name := "c", status := "passed" }, { name := "d", status := "warning" },
   { name := "e", status := "passed" }, { name := "f", status := "passed" },
   { name := "g", status := "passed" }, { name := "h", status := "failed" }]

/-- Sample `language_guidelines.md` content with grade sections 3 and 5. -/
def guideDoc : String :=
  "# Guide\n## Grade 3 (Ages 8-9)\nMaximum sentence length: 8-12 words\nNew words per lesson: 4-6\nAllowed connectors: \"and\", \"but\", \"because\"\n## Grade 5\nMaximum sentence length: 14-18 words\nNew words per lesson: 6-10\nAllowed connectors: all common conjunctions\n"

/-- Sample `NCERT_Pedagogical_Style_Knowledge.md` content with rows for
grades K, 3 and 5. -/
def ncertDoc : String :=
  "Table:\n| Grade | L1 | L2 | L3 | L4 | L5 | Total |\n| K | 4 | 4 | 2 | 0 | 0 | 10 |\n| 3 | 2 | 3 | 3 | 1 | 1 | 10 |\n| 5 | 1 | 2 | 3 | 2 | 2 | 10 |\n"

/-- Sample `digital_interactions.md` content with grade sections 3 and 5. -/
def interDoc : String :=
  "## Grade 3\n### Allowed Types\n**Tap:** Tap to Select, Tap Yes / No\n**Drag:** Drag and Drop\n### Forbidden\n**X:** Zap\n## Grade 5\n### Allowed Types\n**Tap:** Tap to Select\n"

/-- Store holding the four required documents with parseable content. -/
def fsRich : List (String × String) :=
  [("language_guidelines.md", guideDoc),
   ("NCERT_Pedagogical_Style_Knowledge.md", ncertDoc),
   ("digital_interactions.md", interDoc),
   ("question_bank.md", "qb")]

/-- Fresh loader over `fsRich`. -/
def loaderRich : KBLoader := ⟨"kb_files", fsRich, none⟩

/-- Store holding the four required documents with contents containing no
grade sections at all. -/
def fsPlain : List (String × String) :=
  [("language_guidelines.md", "x"),
   ("NCERT_Pedagogical_Style_Knowledge.md", "x"),
   ("digital_interactions.md", "x"),
   ("question_bank.md", "x")]

/-- Fresh loader over `fsPlain`. -/
def loaderPlain : KBLoader := ⟨"kb_files", fsPlain, none⟩

/-- Store missing the required `question_bank.md` (and holding one optional
document). -/
def fsMissingOne : List (String × String) :=
  [("language_guidelines.md", guideDoc),
   ("NCERT_Pedagogical_Style_Knowledge.md", ncertDoc),
   ("digital_interactions.md", interDoc),
   ("KB_MASTER_GUIDE.md", "guide")]

/-- Fresh loader over `fsMissingOne`. -/
def loaderMissingOne : KBLoader := ⟨"kb_files", fsMissingOne, none⟩

/-! Helper lemmas about report aggregation. -/

/-- Adding a check appends it to the ordered check list. -/
theorem addCheck_checks (r : ValidationReport) (c : CheckResult) :
    (addCheck r c).checks = r.checks ++ [c] := by
  by_cases h : c.status = "failed"
  · simp [addCheck, h]
  · by_cases h2 : c.status = "warning" <;> simp [addCheck, h, h2]

/-- Adding a check clears `passed` exactly when the check failed. -/
theorem addCheck_passed (r : ValidationReport) (c : CheckResult) :
    (addCheck r c).passed = (r.passed && !(c.status == "failed")) := by
  by_cases h : c.status = "failed"
  · simp [addCheck, h]
  · by_cases h2 : c.status = "warning" <;> simp [addCheck, h, h2]

/-- Folding `addCheck` appends the added checks in order. -/
theorem foldl_addCheck_checks (cs : List CheckResult) :
    ∀ r : ValidationReport, (List.foldl addCheck r cs).checks = r.checks ++ cs := by
  induction cs with
  | nil => intro r; simp
  | cons c cs ih =>
    intro r
    simp [List.foldl_cons, ih, addCheck_checks]

/-- Folding `addCheck` clears `passed` exactly when some added check
failed. -/
theorem foldl_addCheck_passed (cs : List CheckResult) :
    ∀ r : ValidationReport,
      (List.foldl addCheck r cs).passed =
        (r.passed && !(cs.any (fun c => c.status == "failed"))) := by
  induction cs with
  | nil => intro r; simp
  | cons c cs ih =>
    intro r
    simp [List.foldl_cons, ih, addCheck_passed, Bool.and_assoc]

/-- Computing the score does not change the check list. -/
theorem computeScore_checks (r : ValidationReport) :
    (computeScore r).checks = r.checks := by
  by_cases h : r.checks.isEmpty <;> simp [computeScore, h]

/-- Computing the score does not change the `passed` flag. -/
theorem computeScore_passed (r : ValidationReport) :
    (computeScore r).passed = r.passed := by
  by_cases h : r.checks.isEmpty <;> simp [computeScore, h]

/-- Claim C2: for every report built by adding checks and computing the
score, `passed` is false iff at least one added check has status failed
(warnings never flip it), the score is `round((passed + 0.5*warning)/total, 2)`
with 0.0 for an empty check list, and the 6-passed/1-warning/1-failed
eight-check report scores 0.81 with `passed = false`. -/
theorem c2_report_aggregation (cs : List CheckResult) :
    ((computeScore (List.foldl addCheck {} cs)).passed = false ↔
      ∃ c ∈ cs, c.status = "failed")
    ∧ (computeScore (List.foldl addCheck {} cs)).overall_score =
        (if cs.isEmpty then 0
         else pyRound2
           ((((cs.countP (fun c => c.status == "passed")) : ℚ) +
             ((cs.countP (fun c => c.status == "warning")) : ℚ) * (1 / 2)) /
            (cs.length : ℚ)))
    ∧ (computeScore (List.foldl addCheck {} reportC611)).passed = false
    ∧ (computeScore (List.foldl addCheck {} reportC611)).overall_score = 81 / 100 := by
  refine ⟨?_, ?_, ?_, ?_⟩
  · rw [computeScore_passed, foldl_addCheck_passed]
    simp [List.any_eq_true]
  · have hc : (List.foldl addCheck {} cs).checks = cs := by
      rw [foldl_addCheck_checks]; rfl
    by_cases h : cs.isEmpty
    · simp [computeScore, hc, h]
    · simp [computeScore, hc, h]
  · rw [computeScore_passed, foldl_addCheck_passed]
    decide
  · have hc : (List.foldl addCheck {} reportC611).checks = reportC611 := by
      rw [foldl_addCheck_checks]; rfl
    have h6 : reportC611.countP (fun c => c.status == "passed") = 6 := by decide
    have h1w : reportC611.countP (fun c => c.status == "warning") = 1 := by decide
    have hlen : reportC611.length = 8 := by decide
    have hne : reportC611.isEmpty = false := by decide
    simp only [computeScore, hc, h6, h1w, hlen, hne, Bool.false_eq_true,
      if_false]
    have hq : (((6 : ℕ) : ℚ) + ((1 : ℕ) : ℚ) * (1 / 2)) / ((8 : ℕ) : ℚ) * 100 =
        325 / 4 := by push_cast; norm_num
    unfold pyRound2 roundHalfEven
    rw [hq]
    have hfl : ⌊(325 / 4 : ℚ)⌋ = 81 := by
      rw [Int.floor_eq_iff]
      constructor <;> norm_num
    rw [hfl]
    rw [if_pos (by norm_num)]
    norm_num

/-! Helper lemma for the audio pacing check. -/

/-- Status of the audio pacing check as a function of the marker counts in
the flattened text; the check itself never raises. -/
theorem audio_pacing_status (lesson : Json) :
    (audio_pacing_check lesson).isOk = true
    ∧ exceptStatus (audio_pacing_check lesson) =
      (if countOcc "[Pause]" (extractAllText lesson) = 0 ∨
          countOcc "[Beat]" (extractAllText lesson) = 0 then "failed"
       else "passed") := by
  by_cases hp : countOcc "[Pause]" (extractAllText lesson) = 0 <;>
    by_cases hb : countOcc "[Beat]" (extractAllText lesson) = 0 <;>
      simp [audio_pacing_check, exceptStatus, hp, hb, Except.isOk, Except.toBool]

/-- Claim C8: the audio pacing check never raises, fails exactly when the
flattened text lacks a `[Beat]` or lacks a `[Pause]` marker, is never a
warning, and passes exactly when at least one of each is present. -/
theorem c8_audio_pacing_hard (lesson : Json) :
    (audio_pacing_check lesson).isOk = true
    ∧ (exceptStatus (audio_pacing_check lesson) = "failed" ↔
        countOcc "[Beat]" (extractAllText lesson) < 1 ∨
        countOcc "[Pause]" (extractAllText lesson) < 1)
    ∧ exceptStatus (audio_pacing_check lesson) ≠ "warning"
    ∧ (exceptStatus (audio_pacing_check lesson) = "passed" ↔
        1 ≤ countOcc "[Beat]" (extractAllText lesson) ∧
        1 ≤ countOcc "[Pause]" (extractAllText lesson)) := by
  obtain ⟨h1, h2⟩ := audio_pacing_status lesson
  refine ⟨h1, ?_, ?_, ?_⟩ <;> rw [h2] <;>
    by_cases hp : countOcc "[Pause]" (extractAllText lesson) = 0 <;>
      by_cases hb : countOcc "[Beat]" (extractAllText lesson) = 0 <;>
        simp [hp, hb, Nat.lt_one_iff, Nat.one_le_iff_ne_zero]

/-! Helper lemmas: every check result carries the fixed name of its check. -/

/-- Name of any returned language-ceiling result. -/
theorem language_ceiling_check_name (l : Json) (g : String) (c : CheckResult)
    (h : language_ceiling_check l g = .ok c) : c.name = "language_ceiling" := by
  simp only [language_ceiling_check] at h
  repeat' split at h
  all_goals first
    | exact Except.noConfusion h
    | (injection h with h2; rw [← h2])

/-- Name of any returned Bloom-distribution result. -/
theorem blooms_distribution_check_name (l : Json) (g : String) (c : CheckResult)
    (h : blooms_distribution_check l g = .ok c) : c.name = "blooms_distribution" := by
  simp only [blooms_distribution_check] at h
  repeat' split at h
  all_goals first
    | exact Except.noConfusion h
    | (injection h with h2; rw [← h2])

/-- Name of any returned interaction-type result. -/
theorem interaction_type_check_name (l : Json) (g : String) (c : CheckResult)
    (h : interaction_type_check l g = .ok c) : c.name = "interaction_type" := by
  simp only [interaction_type_check] at h
  repeat' split at h
  all_goals first
    | exact Except.noConfusion h
    | (injection h with h2; rw [← h2])

/-- Name of any returned definition-alignment result. -/
theorem definition_check_name (l : Json) (d : List (String × String)) (c : CheckResult)
    (h : definition_check l d = .ok c) : c.name = "definition_alignment" := by
  simp only [definition_check] at h
  repeat' split at h
  all_goals first
    | exact Except.noConfusion h
    | (injection h with h2; rw [← h2])

/-- Name of any returned story-integration result. -/
theorem story_integration_check_name (l : Json) (n : String) (c : CheckResult)
    (h : story_integration_check l n = .ok c) : c.name = "story_integration" := by
  simp only [story_integration_check] at h
  repeat' split at h
  all_goals first
    | exact Except.noConfusion h
    | (injection h with h2; rw [← h2])

/-- Name of any returned audio-pacing result. -/
theorem audio_pacing_check_name (l : Json) (c : CheckResult)
    (h : audio_pacing_check l = .ok c) : c.name = "audio_pacing" := by
  simp only [audio_pacing_check] at h
  repeat' split at h
  all_goals first
    | exact Except.noConfusion h
    | (injection h with h2; rw [← h2])

/-- Name of any returned feedback-structure result. -/
theorem feedback_structure_check_name (l : Json) (c : CheckResult)
    (h : feedback_structure_check l = .ok c) : c.name = "feedback_structure" := by
  simp only [feedback_structure_check] at h
  repeat' split at h
  all_goals first
    | exact Except.noConfusion h
    | (injection h with h2; rw [← h2])

/-- Name of any returned content-isolation result. -/
theorem content_isolation_check_name (l : Json) (e p : List String) (c : CheckResult)
    (h : content_isolation_check l e p = .ok c) : c.name = "content_isolation" := by
  simp only [content_isolation_check] at h
  repeat' split at h
  all_goals first
    | exact Except.noConfusion h
    | (injection h with h2; rw [← h2])

/-- Shared shape lemma: the checks of a report built by `validate` are the
converted check computations, in order. -/
theorem validate_checks (lesson : Json) (grade subject : String)
    (exclusions prerequisites : Option (List String))
    (context_narrative : Option String)
    (kb_definitions : Option (List (String × String))) :
    (validate lesson grade subject exclusions prerequisites context_narrative
      kb_definitions).checks =
    (checkPairs lesson grade subject (exclusions.getD []) (prerequisites.getD [])
      (context_narrative.getD "") (kb_definitions.getD [])).map convCheck := by
  unfold validate
  rw [computeScore_checks]
  have hfold :
      (List.foldl
        (fun rep pr => addCheck rep
          (match pr.2 with
           | .ok c => c
           | .error e => errCheckResult pr.1 e))
        ({} : ValidationReport)
        (checkPairs lesson grade subject (exclusions.getD []) (prerequisites.getD [])
          (context_narrative.getD "") (kb_definitions.getD []))) =
      List.foldl addCheck {}
        ((checkPairs lesson grade subject (exclusions.getD []) (prerequisites.getD [])
          (context_narrative.getD "") (kb_definitions.getD [])).map convCheck) := by
    rw [List.foldl_map]
    rfl
  rw [hfold, foldl_addCheck_checks]
  rfl

/-- Claim C1: `validate` always returns a report whose check list is exactly
the eight converted check computations, in the fixed order a-h with the fixed
names; a raising check contributes `errCheckResult name excText`, whose
details and message carry the exception text, via `convCheck`. -/
theorem c1_validate_total_eight (lesson : Json) (grade subject : String)
    (exclusions prerequisites : Option (List String))
    (context_narrative : Option String)
    (kb_definitions : Option (List (String × String))) :
    (validate lesson grade subject exclusions prerequisites context_narrative
      kb_definitions).checks =
      (checkPairs lesson grade subject (exclusions.getD []) (prerequisites.getD [])
        (context_narrative.getD "") (kb_definitions.getD [])).map convCheck
    ∧ (validate lesson grade subject exclusions prerequisites context_narrative
        kb_definitions).checks.map CheckResult.name = checkNames
    ∧ (validate lesson grade subject exclusions prerequisites context_narrative
        kb_definitions).checks.length = 8 := by
  have h1 := validate_checks lesson grade subject exclusions prerequisites
    context_narrative kb_definitions
  refine ⟨h1, ?_, ?_⟩
  · rw [h1]
    have n1 : (convCheck ("language_ceiling", language_ceiling_check lesson grade)).name =
        "language_ceiling" := by
      cases hx : language_ceiling_check lesson grade with
      | ok c => simpa [convCheck, hx] using language_ceiling_check_name _ _ _ hx
      | error e => simp [convCheck, hx, errCheckResult]
    have n2 : (convCheck ("blooms_distribution", blooms_distribution_check lesson grade)).name =
        "blooms_distribution" := by
      cases hx : blooms_distribution_check lesson grade with
      | ok c => simpa [convCheck, hx] using blooms_distribution_check_name _ _ _ hx
      | error e => simp [convCheck, hx, errCheckResult]
    have n3 : (convCheck ("interaction_type", interaction_type_check lesson grade)).name =
        "interaction_type" := by
      cases hx : interaction_type_check lesson grade with
      | ok c => simpa [convCheck, hx] using interaction_type_check_name _ _ _ hx
      | error e => simp [convCheck, hx, errCheckResult]
    have n4 : (convCheck ("definition_alignment",
        definition_check lesson (kb_definitions.getD []))).name = "definition_alignment" := by
      cases hx : definition_check lesson (kb_definitions.getD []) with
      | ok c => simpa [convCheck, hx] using definition_check_name _ _ _ hx
      | error e => simp [convCheck, hx, errCheckResult]
    have n5 : (convCheck ("story_integration",
        story_integration_check lesson (context_narrative.getD ""))).name =
        "story_integration" := by
      cases hx : story_integration_check lesson (context_narrative.getD "") with
      | ok c => simpa [convCheck, hx] using story_integration_check_name _ _ _ hx
      | error e => simp [convCheck, hx, errCheckResult]
    have n6 : (convCheck ("audio_pacing", audio_pacing_check lesson)).name =
        "audio_pacing" := by
      cases hx : audio_pacing_check lesson with
      | ok c => simpa [convCheck, hx] using audio_pacing_check_name _ _ hx
      | error e => simp [convCheck, hx, errCheckResult]
    have n7 : (convCheck ("feedback_structure", feedback_structure_check lesson)).name =
        "feedback_structure" := by
      cases hx : feedback_structure_check lesson with
      | ok c => simpa [convCheck, hx] using feedback_structure_check_name _ _ hx
      | error e => simp [convCheck, hx, errCheckResult]
    have n8 : (convCheck ("content_isolation",
        content_isolation_check lesson (exclusions.getD []) (prerequisites.getD []))).name =
        "content_isolation" := by
      cases hx : content_isolation_check lesson (exclusions.getD []) (prerequisites.getD []) with
      | ok c => simpa [convCheck, hx] using content_isolation_check_name _ _ _ _ hx
      | error e => simp [convCheck, hx, errCheckResult]
    simp [checkPairs, checkNames, n1, n2, n3, n4, n5, n6, n7, n8]
  · rw [h1]
    simp [checkPairs]

/-! Loader helper lemmas. -/

/-- Loading with a populated cache returns the cached snapshot and the same
state, touching nothing. -/
theorem kbLoad_cache_some (l : KBLoader) (kb : KBData) (h : l.cache = some kb) :
    kbLoad l = .ok (kb, l) := by
  obtain ⟨path, fs, cache⟩ := l
  simp only at h
  subst h
  rfl

/-- Claim C3: a fresh load (and reload) raises `KBLoadError` carrying exactly
the required names absent from the store whenever at least one is missing,
and returns a snapshot without raising whenever every required name is
present, regardless of absent optional documents. -/
theorem c3_required_files (path : String) (fs : List (String × String)) :
    (kb_required_files.filter (fun f => !((fs.map Prod.fst).contains f)) ≠ [] →
      ∃ m,
        kbLoad ⟨path, fs, none⟩ =
          .error (.kbLoadError m
            (kb_required_files.filter (fun f => !((fs.map Prod.fst).contains f))))
        ∧ kbReload ⟨path, fs, none⟩ =
          .error (.kbLoadError m
            (kb_required_files.filter (fun f => !((fs.map Prod.fst).contains f)))))
    ∧ (kb_required_files.filter (fun f => !((fs.map Prod.fst).contains f)) = [] →
      (kbLoad ⟨path, fs, none⟩).isOk = true
      ∧ (kbReload ⟨path, fs, none⟩).isOk = true) := by
  by_cases h : kb_required_files.filter (fun f => !((fs.map Prod.fst).contains f)) = []
  · refine ⟨fun hne => absurd h hne, fun _ => ?_⟩
    constructor
    · show (kbLoad ⟨path, fs, none⟩).isOk = true
      simp only [kbLoad]
      rw [h]
      rfl
    · show (kbReload ⟨path, fs, none⟩).isOk = true
      simp only [kbReload, kbLoad]
      rw [h]
      rfl
  · refine ⟨fun _ => ?_, fun he => absurd he h⟩
    have hb : (kb_required_files.filter
        (fun f => !((fs.map Prod.fst).contains f))).isEmpty = false := by
      cases hq : (kb_required_files.filter
          (fun f => !((fs.map Prod.fst).contains f))).isEmpty
      · rfl
      · exact absurd (List.isEmpty_iff.1 hq) h
    refine ⟨"Required KB files missing from " ++ path ++ ": " ++
      pyReprStrList (kb_required_files.filter (fun f => !((fs.map Prod.fst).contains f))),
      ?_, ?_⟩
    · show kbLoad ⟨path, fs, none⟩ = _
      simp only [kbLoad]
      rw [if_neg (by rw [hb]; exact Bool.false_ne_true)]
    · show kbReload ⟨path, fs, none⟩ = _
      simp only [kbReload, kbLoad]
      rw [if_neg (by rw [hb]; exact Bool.false_ne_true)]

/-- Witness for C3 at a store missing `question_bank.md` (but holding an
optional document) and at a complete store. -/
theorem c3_witness :
    (kb_required_files.filter (fun f => !((fsMissingOne.map Prod.fst).contains f)) =
      ["question_bank.md"])
    ∧ (∃ m, kbLoad loaderMissingOne = .error (.kbLoadError m ["question_bank.md"]))
    ∧ (kbLoad loaderRich).isOk = true := by
  refine ⟨by decide, ?_, ?_⟩
  · obtain ⟨m, hm, _⟩ := (c3_required_files "kb_files" fsMissingOne).1 (by decide)
    exact ⟨m, hm⟩
  · exact ((c3_required_files "kb_files" fsRich).2 (by decide)).1

/-- Claim C6: after one successful load of a fresh loader, every subsequent
`load` returns the identical cached snapshot and state — even when the
underlying store has changed, so storage is not re-read — and `reload` after
the load re-runs `load` from scratch on the stored state, reproducing the
same result on the unchanged store. -/
theorem c6_load_idempotent_cached (l : KBLoader) (h0 : l.cache = none)
    (h : (kbLoad l).isOk = true) :
    ((kbLoad l).bind (fun p => kbLoad p.2) = kbLoad l)
    ∧ (∀ fs2, (kbLoad l).bind (fun p => kbLoad { p.2 with fs := fs2 }) =
        (kbLoad l).map (fun p => (p.1, { p.2 with fs := fs2 })))
    ∧ ((kbLoad l).bind (fun p => kbReload p.2) = kbLoad l)
    ∧ (∀ lx : KBLoader, kbReload lx = kbLoad { lx with cache := none }) := by
  obtain ⟨path, fs, cache⟩ := l
  simp only at h0
  subst h0
  by_cases hm :
      (kb_required_files.filter (fun f => !((fs.map Prod.fst).contains f))).isEmpty = true
  · obtain ⟨kb, hload⟩ :
        ∃ kb, kbLoad ⟨path, fs, none⟩ = .ok (kb, ⟨path, fs, some kb⟩) := by
      simp only [kbLoad]
      rw [if_pos hm]
      exact ⟨_, rfl⟩
    refine ⟨?_, fun fs2 => ?_, ?_, fun lx => rfl⟩
    · rw [hload]; rfl
    · rw [hload]; rfl
    · rw [hload]
      exact hload
  · exfalso
    have hb : (kb_required_files.filter
        (fun f => !((fs.map Prod.fst).contains f))).isEmpty = false := by
      cases hq : (kb_required_files.filter
          (fun f => !((fs.map Prod.fst).contains f))).isEmpty
      · rfl
      · exact absurd hq hm
    simp only [kbLoad] at h
    rw [if_neg (by rw [hb]; exact Bool.false_ne_true)] at h
    exact Bool.noConfusion h

/-- Witness for C6 at the concrete complete store. -/
theorem c6_witness :
    ((kbLoad loaderRich).bind (fun p => kbLoad p.2) = kbLoad loaderRich)
    ∧ ((kbLoad loaderRich).bind (fun p => kbReload p.2) = kbLoad loaderRich) := by
  have h := c6_load_idempotent_cached loaderRich rfl (by decide)
  exact ⟨h.1, h.2.2.1⟩

/-! Helper lemmas for the checksum claim. -/

/-- Totality of the code-point order. -/
theorem charListLe_total : ∀ a b : List Char,
    charListLe a b = true ∨ charListLe b a = true := by
  intro a
  induction a with
  | nil => intro b; exact Or.inl rfl
  | cons c cs ih =>
    intro b
    cases b with
    | nil => exact Or.inr rfl
    | cons d ds =>
      by_cases h1 : c.toNat < d.toNat
      · exact Or.inl (by simp [charListLe, h1])
      · by_cases h2 : d.toNat < c.toNat
        · exact Or.inr (by simp [charListLe, h2])
        · rcases ih ds with hcd | hdc
          · exact Or.inl (by simp [charListLe, h1, h2, hcd])
          · exact Or.inr (by simp [charListLe, h1, h2, hdc])

/-- Transitivity of the code-point order. -/
theorem charListLe_trans : ∀ a b c : List Char,
    charListLe a b = true → charListLe b c = true → charListLe a c = true := by
  intro a
  induction a with
  | nil => intro b c _ _; rfl
  | cons x xs ih =>
    intro b c hab hbc
    cases b with
    | nil => exact absurd hab (by simp [charListLe])
    | cons y ys =>
      cases c with
      | nil => exact absurd hbc (by simp [charListLe])
      | cons z zs =>
        simp only [charListLe] at hab hbc ⊢
        by_cases hxy : x.toNat < y.toNat
        · by_cases hyz : y.toNat < z.toNat
          · rw [if_pos (by omega)]
          · by_cases hzy : z.toNat < y.toNat
            · rw [if_neg hyz, if_pos hzy] at hbc
              exact absurd hbc (by simp)
            · have hyz2 : y.toNat = z.toNat := by omega
              rw [if_pos (by omega)]
        · by_cases hyx : y.toNat < x.toNat
          · rw [if_neg hxy, if_pos hyx] at hab
            exact absurd hab (by simp)
          · have hxy2 : x.toNat = y.toNat := by omega
            rw [if_neg hxy, if_neg hyx] at hab
            by_cases hyz : y.toNat < z.toNat
            · rw [if_pos (by omega)]
            · by_cases hzy : z.toNat < y.toNat
              · rw [if_neg hyz, if_pos hzy] at hbc
                exact absurd hbc (by simp)
              · rw [if_neg hyz, if_neg hzy] at hbc
                rw [if_neg (by omega), if_neg (by omega)]
                exact ih ys zs hab hbc

/-- Antisymmetry of the code-point order. -/
theorem charListLe_antisymm : ∀ a b : List Char,
    charListLe a b = true → charListLe b a = true → a = b := by
  intro a
  induction a with
  | nil =>
    intro b _ hba
    cases b with
    | nil => rfl
    | cons d ds => exact absurd hba (by simp [charListLe])
  | cons c cs ih =>
    intro b hab hba
    cases b with
    | nil => exact absurd hab (by simp [charListLe])
    | cons d ds =>
      simp only [charListLe] at hab hba
      by_cases h1 : c.toNat < d.toNat
      · rw [if_neg (by omega), if_pos (by omega)] at hba
        exact absurd hba (by simp)
      · by_cases h2 : d.toNat < c.toNat
        · rw [if_neg (by omega), if_pos (by omega)] at hab
          exact absurd hab (by simp)
        · have heq : c.toNat = d.toNat := by omega
          have hcd : c = d := by
            rw [← Char.ofNat_toNat c, ← Char.ofNat_toNat d, heq]
          rw [if_neg h1, if_neg h2] at hab
          rw [if_neg (by omega), if_neg (by omega)] at hba
          rw [hcd, ih ds hab hba]

/-- Association lookup returns the stored value when keys are unique. -/
theorem dictGetD_eq_of_mem (m : List (String × String)) (k v d : String)
    (hnd : (m.map Prod.fst).Nodup) (hm : (k, v) ∈ m) : dictGetD m k d = v := by
  induction m with
  | nil => cases hm
  | cons p rest ih =>
    obtain ⟨k2, v2⟩ := p
    rw [List.map_cons] at hnd
    rcases List.mem_cons.1 hm with heq | hmem
    · cases heq
      simp [dictGetD]
    · have hk : k2 ≠ k := by
        intro hkk
        subst hkk
        exact (List.nodup_cons.1 hnd).1 (List.mem_map.2 ⟨(k2, v), hmem, rfl⟩)
      simp only [dictGetD, if_neg hk]
      exact ih (List.nodup_cons.1 hnd).2 hmem

/-- Association lookup returns the default when the key is absent. -/
theorem dictGetD_eq_default (m : List (String × String)) (k d : String)
    (hk : k ∉ m.map Prod.fst) : dictGetD m k d = d := by
  induction m with
  | nil => rfl
  | cons p rest ih =>
    obtain ⟨k2, v2⟩ := p
    have hne : k2 ≠ k := by
      intro h; exact hk (by simp [h])
    simp only [dictGetD, if_neg hne]
    exact ih (fun h => hk (by simp [h]))

/-- Claim C7: the checksum is a pure, order-independent function of the set
of (name, content) pairs — permuting a mapping with unique names leaves the
digest unchanged. -/
theorem c7_checksum_order_independent (m1 m2 : List (String × String))
    (h1 : (m1.map Prod.fst).Nodup) (hp : m1.Perm m2) :
    computeChecksum m1 = computeChecksum m2 := by
  have hkeys : (m1.map Prod.fst).Perm (m2.map Prod.fst) := hp.map Prod.fst
  have h2 : (m2.map Prod.fst).Nodup := hkeys.nodup_iff.1 h1
  haveI : IsAntisymm String (fun a b : String => strLeB a b = true) :=
    ⟨fun a b ha hb => by
      have h := charListLe_antisymm a.toList b.toList ha hb
      cases a with
      | mk da =>
        cases b with
        | mk db => exact congrArg String.mk (by simpa [String.toList] using h)⟩
  haveI : IsTotal String (fun a b : String => strLeB a b = true) :=
    ⟨fun a b => charListLe_total a.toList b.toList⟩
  haveI : IsTrans String (fun a b : String => strLeB a b = true) :=
    ⟨fun a b c ha hb => charListLe_trans a.toList b.toList c.toList ha hb⟩
  have hsort : insSortStr (m1.map Prod.fst) = insSortStr (m2.map Prod.fst) :=
    List.eq_of_perm_of_sorted
      (((List.perm_insertionSort (fun a b : String => strLeB a b = true) _).trans
          hkeys).trans
        (List.perm_insertionSort (fun a b : String => strLeB a b = true) _).symm)
      (List.sorted_insertionSort (fun a b : String => strLeB a b = true) _)
      (List.sorted_insertionSort (fun a b : String => strLeB a b = true) _)
  have hlook : ∀ k, dictGetD m1 k "" = dictGetD m2 k "" := by
    intro k
    by_cases hk : k ∈ m1.map Prod.fst
    · obtain ⟨⟨k2, v⟩, hmem, hfst⟩ := List.mem_map.1 hk
      cases hfst
      rw [dictGetD_eq_of_mem _ _ v _ h1 hmem,
        dictGetD_eq_of_mem _ _ v _ h2 (hp.mem_iff.1 hmem)]
    · have hk2 : k ∉ m2.map Prod.fst := by
        intro hc
        obtain ⟨⟨k2, v⟩, hmem, hfst⟩ := List.mem_map.1 hc
        cases hfst
        exact hk (List.mem_map.2 ⟨(k2, v), hp.mem_iff.2 hmem, rfl⟩)
      rw [dictGetD_eq_default _ _ _ hk, dictGetD_eq_default _ _ _ hk2]
  simp only [computeChecksum]
  rw [hsort]
  congr 1
  congr 1
  exact List.map_congr_left (fun name _ => by rw [hlook name])

/-- Witness for C7 on a two-document mapping presented in both orders. -/
theorem c7_witness :
    computeChecksum [("a.md", "x"), ("b.md", "y")] =
      computeChecksum [("b.md", "y"), ("a.md", "x")] :=
  c7_checksum_order_independent _ _ (by decide) (by decide)

/-! Claim C4: unknown-grade fallbacks. -/

/-- Counterexample to claim C4 as stated: over a successfully loaded KB whose
documents contain no grade sections, the grade-keyed lookups raise `KeyError`
on the fallback grade instead of never raising. -/
theorem c4_counterexample :
    (kbLoad loaderPlain).isOk = true
    ∧ getLanguageCeiling loaderPlain "99" = .error (.keyError "5")
    ∧ getBloomDistribution loaderPlain "99" = .error (.keyError "3")
    ∧ getAllowedInteractions loaderPlain "99" = .error (.keyError "5") :=
  ⟨rfl, rfl, rfl, rfl⟩

/-- Claim C4 as amended: over a successfully loaded KB, a grade code absent
from a parsed table makes the lookup return the fallback entry — grade "5"
for ceilings and interactions, grade "3" for the Bloom distribution — and it
raises only when the fallback grade is itself absent from the table. -/
theorem c4_unknown_grade_fallback (l : KBLoader) (grade : String)
    (h : (kbLoad l).isOk = true) :
    ((loadedData l).bind (fun kb => assocLookup kb.language_ceilings grade) = none →
      ceilingValue l grade =
        (loadedData l).bind (fun kb => assocLookup kb.language_ceilings "5")
      ∧ (getLanguageCeiling l grade).isOk =
          ((loadedData l).bind (fun kb => assocLookup kb.language_ceilings "5")).isSome)
    ∧ ((loadedData l).bind (fun kb => assocLookup kb.bloom_distributions grade) = none →
      bloomValue l grade =
        (loadedData l).bind (fun kb => assocLookup kb.bloom_distributions "3")
      ∧ (getBloomDistribution l grade).isOk =
          ((loadedData l).bind (fun kb => assocLookup kb.bloom_distributions "3")).isSome)
    ∧ ((loadedData l).bind (fun kb => assocLookup kb.allowed_interactions grade) = none →
      interValue l grade =
        (loadedData l).bind (fun kb => assocLookup kb.allowed_interactions "5")
      ∧ (getAllowedInteractions l grade).isOk =
          ((loadedData l).bind (fun kb => assocLookup kb.allowed_interactions "5")).isSome) := by
  cases hL : kbLoad l with
  | error e =>
    rw [hL] at h
    exact Bool.noConfusion h
  | ok p =>
    obtain ⟨kb, l2⟩ := p
    refine ⟨fun hnone => ?_, fun hnone => ?_, fun hnone => ?_⟩
    · have hn : assocLookup kb.language_ceilings grade = none := by
        simpa [loadedData, hL] using hnone
      constructor
      · simp only [ceilingValue, getLanguageCeiling, loadedData, hL, hn,
          Option.isSome_none, Bool.false_eq_true, if_false, Option.some_bind]
        cases h5 : assocLookup kb.language_ceilings "5" <;> simp [h5]
      · simp only [getLanguageCeiling, loadedData, hL, hn,
          Option.isSome_none, Bool.false_eq_true, if_false, Option.some_bind]
        cases h5 : assocLookup kb.language_ceilings "5" <;>
          simp [h5, Except.isOk, Except.toBool]
    · have hn : assocLookup kb.bloom_distributions grade = none := by
        simpa [loadedData, hL] using hnone
      constructor
      · simp only [bloomValue, getBloomDistribution, loadedData, hL, hn,
          Option.isSome_none, Bool.false_eq_true, if_false, Option.some_bind]
        cases h3 : assocLookup kb.bloom_distributions "3" <;> simp [h3]
      · simp only [getBloomDistribution, loadedData, hL, hn,
          Option.isSome_none, Bool.false_eq_true, if_false, Option.some_bind]
        cases h3 : assocLookup kb.bloom_distributions "3" <;>
          simp [h3, Except.isOk, Except.toBool]
    · have hn : assocLookup kb.allowed_interactions grade = none := by
        simpa [loadedData, hL] using hnone
      constructor
      · simp only [interValue, getAllowedInteractions, loadedData, hL, hn,
          Option.isSome_none, Bool.false_eq_true, if_false, Option.some_bind]
        cases h5 : assocLookup kb.allowed_interactions "5" <;> simp [h5]
      · simp only [getAllowedInteractions, loadedData, hL, hn,
          Option.isSome_none, Bool.false_eq_true, if_false, Option.some_bind]
        cases h5 : assocLookup kb.allowed_interactions "5" <;>
          simp [h5, Except.isOk, Except.toBool]

/-- Witness for the amended C4 at the parsed concrete store and the unknown
grade "99". -/
theorem c4_witness :
    ((loadedData loaderRich).bind (fun kb => assocLookup kb.language_ceilings "99") = none)
    ∧ ceilingValue loaderRich "99" =
        (loadedData loaderRich).bind (fun kb => assocLookup kb.language_ceilings "5")
    ∧ (getLanguageCeiling loaderRich "99").isOk = true
    ∧ bloomValue loaderRich "99" =
        (loadedData loaderRich).bind (fun kb => assocLookup kb.bloom_distributions "3")
    ∧ interValue loaderRich "99" =
        (loadedData loaderRich).bind (fun kb => assocLookup kb.allowed_interactions "5")
    ∧ bloomValue loaderRich "99" = some ⟨2, 3, 3, 1, 1⟩ := by
  have h := c4_unknown_grade_fallback loaderRich "99" (by decide)
  refine ⟨by decide, (h.1 (by decide)).1, ?_, (h.2.1 (by decide)).1,
    (h.2.2 (by decide)).1, by decide⟩
  rw [(h.1 (by decide)).2]
  decide

/-! Claim C5: the Bloom distribution check. -/

/-- Label extraction succeeds on a wellformed quiz item. -/
theorem getBloomLabel_wf (q : Json) (h : quizItemWF q = true) :
    getBloomLabel q = .ok (itemLabel q) := by
  cases q with
  | obj qf =>
    cases hv : (assocFind qf "bloom_level").getD (.str "") with
    | str s => simp [getBloomLabel, itemLabel, pyGetD, hv]
    | num n => exact absurd h (by simp [quizItemWF, hv])
    | bool b => exact absurd h (by simp [quizItemWF, hv])
    | null => exact absurd h (by simp [quizItemWF, hv])
    | arr xs => exact absurd h (by simp [quizItemWF, hv])
    | obj fs2 => exact absurd h (by simp [quizItemWF, hv])
  | str s => exact absurd h (by simp [quizItemWF])
  | num n => exact absurd h (by simp [quizItemWF])
  | bool b => exact absurd h (by simp [quizItemWF])
  | null => exact absurd h (by simp [quizItemWF])
  | arr xs => exact absurd h (by simp [quizItemWF])

/-- Counting loop on a wellformed quiz computes the label fold. -/
theorem countLevels_wf (items : List Json)
    (hwf : ∀ q ∈ items, quizItemWF q = true) :
    ∀ acc, countLevels items acc = .ok ((items.map itemLabel).foldl bloomIncr acc) := by
  induction items with
  | nil => intro acc; rfl
  | cons q qs ih =>
    intro acc
    rw [List.map_cons, List.foldl_cons]
    simp only [countLevels, getBloomLabel_wf q (hwf q (by simp))]
    exact ih (fun x hx => hwf x (by simp [hx])) _

/-- Low-progression loop on a wellformed quiz computes the pure form. -/
theorem lowIssues_wf (items : List Json)
    (hwf : ∀ q ∈ items, quizItemWF q = true) :
    ∀ i, lowIssues items i = .ok (lowIssuesPure (items.map itemLabel) i) := by
  induction items with
  | nil => intro i; rfl
  | cons q qs ih =>
    intro i
    rw [List.map_cons]
    simp only [lowIssues, lowIssuesPure, getBloomLabel_wf q (hwf q (by simp)),
      ih (fun x hx => hwf x (by simp [hx])) (i + 1)]
    split <;> rfl

/-- High-progression loop on a wellformed quiz computes the pure form. -/
theorem highIssues_wf (items : List Json)
    (hwf : ∀ q ∈ items, quizItemWF q = true) :
    ∀ i, highIssues items i = .ok (highIssuesPure (items.map itemLabel) i) := by
  induction items with
  | nil => intro i; rfl
  | cons q qs ih =>
    intro i
    rw [List.map_cons]
    simp only [highIssues, highIssuesPure, getBloomLabel_wf q (hwf q (by simp)),
      ih (fun x hx => hwf x (by simp [hx])) (i + 1)]
    split <;> rfl

/-- Emptiness of the low-progression issue list. -/
theorem lowIssuesPure_nil_iff (ls : List String) :
    ∀ i, (lowIssuesPure ls i = [] ↔
      ls.all (fun l => l == "L1" || l == "L2") = true) := by
  induction ls with
  | nil => intro i; simp [lowIssuesPure]
  | cons l ls ih =>
    intro i
    by_cases hl : l ≠ "L1" ∧ l ≠ "L2"
    · obtain ⟨h1, h2⟩ := hl
      simp [lowIssuesPure, h1, h2, List.all_cons]
    · have hl2 : l = "L1" ∨ l = "L2" := by
        by_cases ha : l = "L1"
        · exact Or.inl ha
        · refine Or.inr ?_
          by_cases hb : l = "L2"
          · exact hb
          · exact absurd ⟨ha, hb⟩ hl
      have hnc : ¬(l ≠ "L1" ∧ l ≠ "L2") := by
        rcases hl2 with hh | hh <;> simp [hh]
      simp only [lowIssuesPure, if_neg hnc, List.all_cons]
      rw [ih (i + 1)]
      rcases hl2 with hh | hh <;> simp [hh]

/-- Emptiness of the high-progression issue list. -/
theorem highIssuesPure_nil_iff (ls : List String) :
    ∀ i, (highIssuesPure ls i = [] ↔
      ls.all (fun l => l == "L3" || l == "L4" || l == "L5") = true) := by
  induction ls with
  | nil => intro i; simp [highIssuesPure]
  | cons l ls ih =>
    intro i
    by_cases hl : l ≠ "L3" ∧ l ≠ "L4" ∧ l ≠ "L5"
    · obtain ⟨h1, h2, h3⟩ := hl
      simp [highIssuesPure, h1, h2, h3, List.all_cons]
    · have hl2 : l = "L3" ∨ l = "L4" ∨ l = "L5" := by
        by_cases ha : l = "L3"
        · exact Or.inl ha
        · by_cases hb : l = "L4"
          · exact Or.inr (Or.inl hb)
          · by_cases hc : l = "L5"
            · exact Or.inr (Or.inr hc)
            · exact absurd ⟨ha, hb, hc⟩ hl
      have hnc : ¬(l ≠ "L3" ∧ l ≠ "L4" ∧ l ≠ "L5") := by
        rcases hl2 with hh | hh | hh <;> simp [hh]
      simp only [highIssuesPure, if_neg hnc, List.all_cons]
      rw [ih (i + 1)]
      rcases hl2 with hh | hh | hh <;> simp [hh]

/-- Counterexample to claim C5 as stated: an eleven-item quiz whose extra
item carries an unrecognised label passes the implemented check although the
claimed ordering rule over the LAST three items is violated. -/
theorem c5_counterexample :
    exceptStatus (blooms_distribution_check lessonQuiz11 "3") = "passed"
    ∧ specBloomsShouldFail lessonQuiz11 "3" = true := by
  refine ⟨by decide, by decide⟩

/-- Claim C5 as amended: on a lesson whose quiz is a list of wellformed
items, the check returns failed exactly when the quiz is empty (or absent),
the counted level occurrences differ from the grade table, one of the FIRST
THREE items is outside the two lowest levels, or one of the items at
positions 8-10 (`quiz[7:10]`, not the last three) is outside the three
highest levels; otherwise it returns passed. -/
theorem c5_blooms_failed_iff (fs : List (String × Json)) (grade : String)
    (items : List Json)
    (hq : (assocFind fs "quick_quiz").getD (.arr []) = .arr items)
    (hwf : ∀ q ∈ items, quizItemWF q = true) :
    exceptStatus (blooms_distribution_check (.obj fs) grade) =
      (if items.isEmpty ||
          !((items.map itemLabel).foldl bloomIncr ⟨0, 0, 0, 0, 0⟩ ==
            bloomDistributionGet grade) ||
          !(((items.map itemLabel).take 3).all (fun l => l == "L1" || l == "L2")) ||
          !((((items.map itemLabel).drop 7).take 3).all
            (fun l => l == "L3" || l == "L4" || l == "L5"))
        then "failed" else "passed") := by
  have hwf3 : ∀ q ∈ items.take 3, quizItemWF q = true :=
    fun q hx => hwf q (List.take_subset _ _ hx)
  have hwf710 : ∀ q ∈ (items.drop 7).take 3, quizItemWF q = true :=
    fun q hx => hwf q (List.drop_subset _ _ (List.take_subset _ _ hx))
  simp only [blooms_distribution_check, pyGetD, hq]
  by_cases hempty : items.isEmpty
  · have he : items = [] := List.isEmpty_iff.1 hempty
    subst he
    simp [pyTruthy, exceptStatus]
  · have htr : (pyTruthy (.arr items) = false) = False := by
      simp [pyTruthy, hempty]
    rw [if_neg (by simp [pyTruthy, hempty])]
    simp only [pyIterate, countLevels_wf items hwf, lowIssues_wf _ hwf3,
      highIssues_wf _ hwf710]
    rw [List.map_take, List.map_take, List.map_drop]
    by_cases hdist :
        ((items.map itemLabel).foldl bloomIncr ⟨0, 0, 0, 0, 0⟩ ==
          bloomDistributionGet grade) = true
    · by_cases hlow :
          (((items.map itemLabel).take 3).all (fun l => l == "L1" || l == "L2")) = true
      · by_cases hhigh :
            ((((items.map itemLabel).drop 7).take 3).all
              (fun l => l == "L3" || l == "L4" || l == "L5")) = true
        · have hlo : lowIssuesPure ((items.map itemLabel).take 3) 1 = [] :=
            (lowIssuesPure_nil_iff _ 1).2 hlow
          have hhi : highIssuesPure (((items.map itemLabel).drop 7).take 3) 8 = [] :=
            (highIssuesPure_nil_iff _ 8).2 hhigh
          simp [exceptStatus, hdist, hlo, hhi, hempty, hlow, hhigh]
        · have hhi : highIssuesPure (((items.map itemLabel).drop 7).take 3) 8 ≠ [] := by
            intro hc
            exact hhigh ((highIssuesPure_nil_iff _ 8).1 hc)
          simp [exceptStatus, hdist, hempty, hlow, hhigh, List.isEmpty_iff,
            List.append_eq_nil, hhi]
      · have hlo : lowIssuesPure ((items.map itemLabel).take 3) 1 ≠ [] := by
          intro hc
          exact hlow ((lowIssuesPure_nil_iff _ 1).1 hc)
        simp [exceptStatus, hdist, hempty, hlow, List.isEmpty_iff,
          List.append_eq_nil, hlo]
    · simp [exceptStatus, hdist, hempty]

/-- Witness for the amended C5 at the concrete passing lesson. -/
theorem c5_witness :
    exceptStatus (blooms_distribution_check lessonOK "3") = "passed" := by
  have h := c5_blooms_failed_iff baseLessonFields "3"
    (["L1", "L1", "L2", "L2", "L2", "L3", "L3", "L3", "L4", "L5"].map mkQuizItem)
    rfl (by decide)
  exact h.trans (by decide)

/-! Congruence and characterisation lemmas used by the frame claim. -/

/-- Converted status "passed" forces the underlying computation to have
returned with status "passed". -/
theorem convCheck_passed_exceptStatus (n : String)
    (comp : Except String CheckResult)
    (h : (convCheck (n, comp)).status = "passed") :
    exceptStatus comp = "passed" := by
  cases comp with
  | ok c => simpa [convCheck, exceptStatus] using h
  | error e => simp [convCheck, errCheckResult] at h

/-- Returned status "passed" passes through the conversion. -/
theorem convCheck_status_passed (n : String) (comp : Except String CheckResult)
    (h : exceptStatus comp = "passed") :
    (convCheck (n, comp)).status = "passed" := by
  cases comp with
  | ok c => simpa [convCheck, exceptStatus] using h
  | error e => simp [exceptStatus] at h

/-- Returned status "failed" passes through the conversion. -/
theorem convCheck_status_failed (n : String) (comp : Except String CheckResult)
    (h : exceptStatus comp = "failed") :
    (convCheck (n, comp)).status = "failed" := by
  cases comp with
  | ok c => simpa [convCheck, exceptStatus] using h
  | error e => simp [exceptStatus] at h

/-- Language-ceiling check depends on the lesson only through the cleaned
sentence text and the emphasis matches of the flattened blob. -/
theorem language_ceiling_congr (La Lb : Json) (g : String)
    (h1 : removeSub "[Pause]" (removeSub "[Beat]" (extractAllText Lb)) =
      removeSub "[Pause]" (removeSub "[Beat]" (extractAllText La)))
    (h2 : findEmphasis (extractAllText Lb) = findEmphasis (extractAllText La)) :
    language_ceiling_check Lb g = language_ceiling_check La g := by
  have e1 : extractSentences (extractAllText Lb) =
      extractSentences (extractAllText La) := by
    unfold extractSentences
    rw [h1]
  simp only [language_ceiling_check]
  rw [e1, h2]

/-- Bloom check depends on the lesson only through its `quick_quiz` field. -/
theorem blooms_distribution_congr (La Lb : Json) (g : String)
    (hq : pyGetD Lb "quick_quiz" (.arr []) = pyGetD La "quick_quiz" (.arr [])) :
    blooms_distribution_check Lb g = blooms_distribution_check La g := by
  simp only [blooms_distribution_check]
  rw [hq]

/-- Interaction check depends on the lesson only through its
`interactive_activity` field. -/
theorem interaction_type_congr (La Lb : Json) (g : String)
    (hact : pyGetD Lb "interactive_activity" (.obj []) =
      pyGetD La "interactive_activity" (.obj [])) :
    interaction_type_check Lb g = interaction_type_check La g := by
  simp only [interaction_type_check]
  rw [hact]

/-- Story check depends on the lesson only through its `opening_narration`
and `narrated_explanation` fields. -/
theorem story_integration_congr (La Lb : Json) (n : String)
    (hop : pyGetD Lb "opening_narration" (.obj []) =
      pyGetD La "opening_narration" (.obj []))
    (hex : pyGetD Lb "narrated_explanation" (.arr []) =
      pyGetD La "narrated_explanation" (.arr [])) :
    story_integration_check Lb n = story_integration_check La n := by
  simp only [story_integration_check]
  rw [hop, hex]

/-- Feedback check depends on the lesson only through its activity and quiz
fields. -/
theorem feedback_structure_congr (La Lb : Json)
    (hact : pyGetD Lb "interactive_activity" (.obj []) =
      pyGetD La "interactive_activity" (.obj []))
    (hq : pyGetD Lb "quick_quiz" (.arr []) = pyGetD La "quick_quiz" (.arr [])) :
    feedback_structure_check Lb = feedback_structure_check La := by
  simp only [feedback_structure_check]
  rw [hact, hq]

/-- Definition check never passes with an empty definitions dict. -/
theorem definition_check_ne_empty (L : Json) (d : List (String × String))
    (h : exceptStatus (definition_check L d) = "passed") : d.isEmpty = false := by
  cases d with
  | nil => simp [definition_check, exceptStatus] at h
  | cons p rest => rfl

/-- Definition check passes when the dict is non-empty and every concept
occurs in the flattened lowercased text. -/
theorem definition_check_passed_of_found (L : Json) (d : List (String × String))
    (hne : d.isEmpty = false)
    (hall : ∀ p ∈ d, substrContains (pyLower (extractAllText L)) (pyLower p.1) = true) :
    exceptStatus (definition_check L d) = "passed" := by
  have hmiss : (d.map Prod.fst).filter
      (fun concept => !(substrContains (pyLower (extractAllText L)) (pyLower concept))) = [] := by
    rw [List.filter_eq_nil]
    intro c hc
    obtain ⟨⟨k, v⟩, hmem, hfst⟩ := List.mem_map.1 hc
    cases hfst
    simp [hall (k, v) hmem]
  simp [definition_check, hne, hmiss, exceptStatus]

/-- Content isolation passes when no excluded concept occurs in the
flattened lowercased text. -/
theorem content_isolation_passed_of_absent (L : Json) (excl prereq : List String)
    (h : ∀ c ∈ excl, substrContains (pyLower (extractAllText L)) (pyLower c) = false) :
    exceptStatus (content_isolation_check L excl prereq) = "passed" := by
  have hf : excl.filter
      (fun concept => substrContains (pyLower (extractAllText L)) (pyLower concept)) = [] := by
    rw [List.filter_eq_nil]
    intro c hc
    simp [h c hc]
  simp [content_isolation_check, hf, exceptStatus]

/-- Counterexample to claim C9 as stated: on a lesson passing all eight
checks whose extra leaf reads `We saw a ca[Beat]t.` with exclusion list
`["cat"]`, deleting the markers flips audio_pacing to failed but ALSO flips
content_isolation to failed — the other seven statuses are not all
preserved. -/
theorem c9_counterexample :
    ((validate lessonBad "3" "math" (some exclCat) none none
      (some kbDefsDog)).checks.map (fun c => c.status) =
      ["passed", "passed", "passed", "passed", "passed", "passed", "passed", "passed"])
    ∧ ((validate (stripJson lessonBad) "3" "math" (some exclCat) none none
      (some kbDefsDog)).checks.map (fun c => c.status) =
      ["passed", "passed", "passed", "passed", "passed", "failed", "passed", "failed"]) := by
  exact ⟨by decide, by decide⟩

/-- Claim C9 as amended: if all eight checks pass and the marker deletion
(i) leaves no `[Pause]` or `[Beat]` in the flattened text, (ii) changes the
cleaned sentence text and emphasis matches not at all, (iii) leaves the
quiz, activity, opening and explanation sections untouched, and (iv)
creates no excluded-concept occurrence and removes no definition-concept
occurrence, then the stripped lesson fails exactly the audio_pacing check
and the other seven statuses stay "passed". -/
theorem c9_strip_markers_frame (L : Json) (grade subject : String)
    (excl prereq : Option (List String)) (narr : Option String)
    (defs : Option (List (String × String)))
    (hPass : (validate L grade subject excl prereq narr defs).checks.all
      (fun c => c.status == "passed") = true)
    (ha : countOcc "[Pause]" (extractAllText (stripJson L)) = 0 ∨
      countOcc "[Beat]" (extractAllText (stripJson L)) = 0)
    (hb1 : removeSub "[Pause]" (removeSub "[Beat]" (extractAllText (stripJson L))) =
      removeSub "[Pause]" (removeSub "[Beat]" (extractAllText L)))
    (hb2 : findEmphasis (extractAllText (stripJson L)) = findEmphasis (extractAllText L))
    (hq : pyGetD (stripJson L) "quick_quiz" (.arr []) = pyGetD L "quick_quiz" (.arr []))
    (hact : pyGetD (stripJson L) "interactive_activity" (.obj []) =
      pyGetD L "interactive_activity" (.obj []))
    (hop : pyGetD (stripJson L) "opening_narration" (.obj []) =
      pyGetD L "opening_narration" (.obj []))
    (hex : pyGetD (stripJson L) "narrated_explanation" (.arr []) =
      pyGetD L "narrated_explanation" (.arr []))
    (hiso : ∀ c ∈ excl.getD [],
      substrContains (pyLower (extractAllText (stripJson L))) (pyLower c) = false)
    (hdef : ∀ p ∈ defs.getD [],
      substrContains (pyLower (extractAllText (stripJson L))) (pyLower p.1) = true) :
    ((validate (stripJson L) grade subject excl prereq narr defs).checks.map
      (fun c => c.status) =
      ["passed", "passed", "passed", "passed", "passed", "failed", "passed", "passed"])
    ∧ ((validate L grade subject excl prereq narr defs).checks.map
      (fun c => c.status) =
      ["passed", "passed", "passed", "passed", "passed", "passed", "passed", "passed"]) := by
  rw [validate_checks L grade subject excl prereq narr defs] at hPass
  simp only [checkPairs, List.map_cons, List.map_nil, List.all_cons, List.all_nil,
    Bool.and_true, Bool.and_eq_true, beq_iff_eq] at hPass
  obtain ⟨hP1, hP2, hP3, hP4, hP5, hP6, hP7, hP8⟩ := hPass
  have s1 := convCheck_passed_exceptStatus _ _ hP1
  have s2 := convCheck_passed_exceptStatus _ _ hP2
  have s3 := convCheck_passed_exceptStatus _ _ hP3
  have s4 := convCheck_passed_exceptStatus _ _ hP4
  have s5 := convCheck_passed_exceptStatus _ _ hP5
  have s6 := convCheck_passed_exceptStatus _ _ hP6
  have s7 := convCheck_passed_exceptStatus _ _ hP7
  have s8 := convCheck_passed_exceptStatus _ _ hP8
  have t1 : exceptStatus (language_ceiling_check (stripJson L) grade) = "passed" := by
    rw [language_ceiling_congr L (stripJson L) grade hb1 hb2]
    exact s1
  have t2 : exceptStatus (blooms_distribution_check (stripJson L) grade) = "passed" := by
    rw [blooms_distribution_congr L (stripJson L) grade hq]
    exact s2
  have t3 : exceptStatus (interaction_type_check (stripJson L) grade) = "passed" := by
    rw [interaction_type_congr L (stripJson L) grade hact]
    exact s3
  have t4 : exceptStatus (definition_check (stripJson L) (defs.getD [])) = "passed" := by
    apply definition_check_passed_of_found
    · exact definition_check_ne_empty L _ s4
    · exact hdef
  have t5 : exceptStatus (story_integration_check (stripJson L) (narr.getD "")) =
      "passed" := by
    rw [story_integration_congr L (stripJson L) (narr.getD "") hop hex]
    exact s5
  have t6 : exceptStatus (audio_pacing_check (stripJson L)) = "failed" := by
    rw [(audio_pacing_status (stripJson L)).2]
    rw [if_pos (by tauto)]
  have t7 : exceptStatus (feedback_structure_check (stripJson L)) = "passed" := by
    rw [feedback_structure_congr L (stripJson L) hact hq]
    exact s7
  have t8 : exceptStatus
      (content_isolation_check (stripJson L) (excl.getD []) (prereq.getD [])) =
      "passed" :=
    content_isolation_passed_of_absent _ _ _ hiso
  constructor
  · rw [validate_checks (stripJson L) grade subject excl prereq narr defs]
    simp only [checkPairs, List.map_cons, List.map_nil]
    rw [convCheck_status_passed _ _ t1, convCheck_status_passed _ _ t2,
      convCheck_status_passed _ _ t3, convCheck_status_passed _ _ t4,
      convCheck_status_passed _ _ t5, convCheck_status_failed _ _ t6,
      convCheck_status_passed _ _ t7, convCheck_status_passed _ _ t8]
  · rw [validate_checks L grade subject excl prereq narr defs]
    simp only [checkPairs, List.map_cons, List.map_nil]
    rw [hP1, hP2, hP3, hP4, hP5, hP6, hP7, hP8]

/-- Witness for the amended C9 at the concrete passing lesson whose markers
live only in the `conclusion` leaf. -/
theorem c9_witness :
    ((validate (stripJson lessonOK) "3" "math" (some exclCat) none none
      (some kbDefsDog)).checks.map (fun c => c.status) =
      ["passed", "passed", "passed", "passed", "passed", "failed", "passed", "passed"])
    ∧ ((validate lessonOK "3" "math" (some exclCat) none none
      (some kbDefsDog)).checks.map (fun c => c.status) =
      ["passed", "passed", "passed", "passed", "passed", "passed", "passed", "passed"]) :=
  c9_strip_markers_frame lessonOK "3" "math" (some exclCat) none none (some kbDefsDog)
    (by decide) (by decide) (by decide) (by decide) rfl rfl rfl rfl
    (by decide) (by decide)

/-! Claim C10: reference semantics of the three grade lookups. -/

/-- Address store: writing then reading the same address yields the written
value. -/
theorem natLookup_natUpsert_self {α : Type} (l : List (Nat × α)) (a : Nat) (v : α) :
    natLookup (natUpsert l a v) a = some v := by
  induction l with
  | nil => simp [natUpsert, natLookup]
  | cons p rest ih =>
    obtain ⟨a2, v2⟩ := p
    by_cases h : a2 = a
    · simp [natUpsert, natLookup, h]
    · simp [natUpsert, natLookup, h, ih]

/-- Address store: writing one address does not change reads of another. -/
theorem natLookup_natUpsert_ne {α : Type} (l : List (Nat × α)) (a b : Nat) (v : α)
    (h : b ≠ a) : natLookup (natUpsert l a v) b = natLookup l b := by
  induction l with
  | nil =>
    simp only [natUpsert, natLookup]
    rw [if_neg (fun hc => h hc.symm)]
  | cons p rest ih =>
    obtain ⟨a2, v2⟩ := p
    by_cases h2 : a2 = a
    · subst h2
      simp only [natUpsert, if_pos rfl, natLookup]
      rw [if_neg (fun hc => h hc.symm), if_neg (fun hc => h hc.symm)]
    · simp only [natUpsert, if_neg h2, natLookup]
      by_cases h3 : a2 = b
      · rw [if_pos h3, if_pos h3]
      · rw [if_neg h3, if_neg h3, ih]

/-- Association lookup success implies membership. -/
theorem assocLookup_mem {α : Type} (l : List (String × α)) (k : String) (v : α)
    (h : assocLookup l k = some v) : (k, v) ∈ l := by
  induction l with
  | nil => exact absurd h (by simp [assocLookup])
  | cons p rest ih =>
    obtain ⟨k2, v2⟩ := p
    by_cases hk : k2 = k
    · simp only [assocLookup, if_pos hk] at h
      injection h with h2
      subst hk
      subst h2
      exact List.mem_cons_self _ _
    · simp only [assocLookup, if_neg hk] at h
      exact List.mem_cons_of_mem _ (ih h)

/-- Claim C10: `get_bloom_distribution` and `get_allowed_interactions` hand
out freshly copied objects — mutating the returned object leaves every
snapshot table value unchanged and a repeated lookup still observes the
original parsed values — whereas `get_language_ceiling` returns an address
of the snapshot itself, so mutating it is visible to the next lookup. -/
theorem c10_defensive_copies (h : RefHeap) (kb : KBDataRef) (g : String)
    (h2 : RefHeap) (a : Nat)
    (hwf : ∀ p ∈ kb.bloom_distributions, p.2 < h.fresh)
    (hget : getBloomDistributionRef h kb g = some (h2, a)) :
    ((∀ v g2, snapshotBloom (writeBloomCell h2 a v) kb g2 = snapshotBloom h kb g2)
      ∧ (∀ v, bloomRefValue (writeBloomCell h2 a v) kb g = bloomRefValue h kb g))
    ∧ (∀ (hI : RefHeap) (kbI : KBDataRef) (gI : String) (hI2 : RefHeap) (aI : Nat),
        (∀ p ∈ kbI.allowed_interactions, p.2 < hI.fresh) →
        getAllowedInteractionsRef hI kbI gI = some (hI2, aI) →
        ∀ v g2, snapshotInter (writeInterCell hI2 aI v) kbI g2 =
          snapshotInter hI kbI g2)
    ∧ (∀ (kbC : KBDataRef) (gC : String) (aC : Nat) (hC : RefHeap)
        (v : LanguageCeiling),
        getLanguageCeilingRef kbC gC = some aC →
        ∃ gf, assocLookup kbC.language_ceilings gf = some aC
          ∧ snapshotCeil (writeCeilCell hC aC v) kbC gf = some v) := by
  refine ⟨?_, ?_, ?_⟩
  · simp only [getBloomDistributionRef] at hget
    cases hlook : assocLookup kb.bloom_distributions
        (if (assocLookup kb.bloom_distributions g).isSome then g else "3") with
    | none =>
      simp only [hlook] at hget
      exact Option.noConfusion hget
    | some addr =>
      simp only [hlook] at hget
      cases hcell : natLookup h.bloomCells addr with
      | none =>
        simp only [hcell] at hget
        exact Option.noConfusion hget
      | some v0 =>
        simp only [hcell] at hget
        injection hget with hget2
        injection hget2 with hh ha2
        have haddr : addr < h.fresh := hwf _ (assocLookup_mem _ _ _ hlook)
        constructor
        · intro v g2
          simp only [snapshotBloom]
          cases hg3 : assocLookup kb.bloom_distributions g2 with
          | none => rfl
          | some addr2 =>
            have haddr2 : addr2 < h.fresh := hwf _ (assocLookup_mem _ _ _ hg3)
            rw [← hh, ← ha2]
            simp only [writeBloomCell, Option.some_bind]
            rw [natLookup_natUpsert_ne _ _ _ _ (show addr2 ≠ h.fresh by omega),
              natLookup_natUpsert_ne _ _ _ _ (show addr2 ≠ h.fresh by omega)]
        · intro v
          rw [← hh, ← ha2]
          have e1 : ∀ (l : List (Nat × BloomCounts)) (w : BloomCounts),
              natLookup (natUpsert l h.fresh w) addr = natLookup l addr :=
            fun l w => natLookup_natUpsert_ne l h.fresh addr w (by omega)
          simp only [bloomRefValue, getBloomDistributionRef, hlook, writeBloomCell,
            e1, hcell, natLookup_natUpsert_self]
  · intro hI kbI gI hI2 aI hwfI hgetI v g2
    simp only [getAllowedInteractionsRef] at hgetI
    cases hlookI : assocLookup kbI.allowed_interactions
        (if (assocLookup kbI.allowed_interactions gI).isSome then gI else "5") with
    | none =>
      simp only [hlookI] at hgetI
      exact Option.noConfusion hgetI
    | some addr =>
      simp only [hlookI] at hgetI
      cases hcellI : natLookup hI.interCells addr with
      | none =>
        simp only [hcellI] at hgetI
        exact Option.noConfusion hgetI
      | some v0 =>
        simp only [hcellI] at hgetI
        injection hgetI with hg2
        injection hg2 with hh ha2
        simp only [snapshotInter]
        cases hg3 : assocLookup kbI.allowed_interactions g2 with
        | none => rfl
        | some addr2 =>
          have haddr2 : addr2 < hI.fresh := hwfI _ (assocLookup_mem _ _ _ hg3)
          rw [← hh, ← ha2]
          simp only [writeInterCell, Option.some_bind]
          rw [natLookup_natUpsert_ne _ _ _ _ (show addr2 ≠ hI.fresh by omega),
            natLookup_natUpsert_ne _ _ _ _ (show addr2 ≠ hI.fresh by omega)]
  · intro kbC gC aC hC v hgetC
    simp only [getLanguageCeilingRef] at hgetC
    refine ⟨if (assocLookup kbC.language_ceilings gC).isSome then gC else "5",
      hgetC, ?_⟩
    simp only [snapshotCeil, writeCeilCell, hgetC, Option.some_bind]
    exact natLookup_natUpsert_self _ _ _

/-- Witness for C10 on a concrete two-grade snapshot and heap. -/
theorem c10_witness :
    (getBloomDistributionRef
        ⟨[(0, ⟨2, 3, 3, 1, 1⟩)], [(1, ["Tap to Select"])], [(2, ⟨"3", 12, 6, [], false⟩)], 3⟩
        ⟨[("3", 2)], [("3", 0)], [("3", 1)]⟩ "3" =
      some (⟨[(0, ⟨2, 3, 3, 1, 1⟩), (3, ⟨2, 3, 3, 1, 1⟩)],
        [(1, ["Tap to Select"])], [(2, ⟨"3", 12, 6, [], false⟩)], 4⟩, 3))
    ∧ (∀ v g2,
        snapshotBloom
          (writeBloomCell
            ⟨[(0, ⟨2, 3, 3, 1, 1⟩), (3, ⟨2, 3, 3, 1, 1⟩)],
              [(1, ["Tap to Select"])], [(2, ⟨"3", 12, 6, [], false⟩)], 4⟩ 3 v)
          ⟨[("3", 2)], [("3", 0)], [("3", 1)]⟩ g2 =
        snapshotBloom
          ⟨[(0, ⟨2, 3, 3, 1, 1⟩)], [(1, ["Tap to Select"])], [(2, ⟨"3", 12, 6, [], false⟩)], 3⟩
          ⟨[("3", 2)], [("3", 0)], [("3", 1)]⟩ g2) := by
  constructor
  · rfl
  · exact ((c10_defensive_copies
      ⟨[(0, ⟨2, 3, 3, 1, 1⟩)], [(1, ["Tap to Select"])], [(2, ⟨"3", 12, 6, [], false⟩)], 3⟩
      ⟨[("3", 2)], [("3", 0)], [("3", 1)]⟩ "3"
      ⟨[(0, ⟨2, 3, 3, 1, 1⟩), (3, ⟨2, 3, 3, 1, 1⟩)],
        [(1, ["Tap to Select"])], [(2, ⟨"3", 12, 6, [], false⟩)], 4⟩ 3
      (by decide) rfl).1).1

end KitmeK